import Mathlib

/-!
Shallow embedding of `src/garmin_mcp/recommendations.py` (garmin_mcp).

Conventions used throughout this development:

* Python `datetime.date` values are modelled by the structure `Date` below
  (year/month/day as integers).  Python compares dates chronologically, which
  on well-formed dates coincides with lexicographic comparison of the
  (year, month, day) triple; we use the lexicographic order.
* Python `timedelta(days = n)` arithmetic is modelled by iterating a calendar
  successor/predecessor step (`Date.succD` / `Date.predD`), which agrees with
  ordinal arithmetic on well-formed dates.
* `datetime.date.weekday` (Monday = 0) is modelled by Sakamoto's formula for
  the proleptic Gregorian calendar, shifted so that Monday is 0.
* Python floats are modelled by exact rationals; `round` is round-half-to-even
  as in Python 3.
-/

namespace GarminMCP

/-- Proleptic-Gregorian leap-year test, as used by `datetime.date`. -/
def isLeap (y : Int) : Bool :=
  (y % 4 == 0 && y % 100 != 0) || y % 400 == 0

/-- Number of days in a month of a given year (Gregorian). -/
def daysInMonth (y m : Int) : Int :=
  if m = 2 then (if isLeap y then 29 else 28)
  else if m = 4 ∨ m = 6 ∨ m = 9 ∨ m = 11 then 30
  else 31

/-- Model of a Python `datetime.date` value. -/
structure Date where
  year : Int
  month : Int
  day : Int
deriving DecidableEq, Repr

/-- A well-formed calendar date (as guaranteed by the `datetime.date`
constructor, except that we do not bound the year above). -/
def Date.Valid (d : Date) : Prop :=
  1 ≤ d.month ∧ d.month ≤ 12 ∧ 1 ≤ d.day ∧ d.day ≤ daysInMonth d.year d.month

instance (d : Date) : Decidable d.Valid := by
  unfold Date.Valid; infer_instance

/-- Chronological (= lexicographic) strict order on dates, i.e. Python `<`. -/
def Date.lt (a b : Date) : Prop :=
  a.year < b.year ∨ (a.year = b.year ∧
    (a.month < b.month ∨ (a.month = b.month ∧ a.day < b.day)))

instance (a b : Date) : Decidable (a.lt b) := by
  unfold Date.lt; infer_instance

/-- Python `<=` on dates. -/
def Date.le (a b : Date) : Prop := a.lt b ∨ a = b

instance (a b : Date) : Decidable (a.le b) := by
  unfold Date.le; infer_instance

/-- `min` of two dates as computed by Python `min(a, b)`. -/
def dmin (a b : Date) : Date := if b.lt a then b else a

/-- The next calendar day (equals Python `d + timedelta(days=1)` on
well-formed dates). -/
def Date.succD (d : Date) : Date :=
  if d.day < daysInMonth d.year d.month then ⟨d.year, d.month, d.day + 1⟩
  else if d.month < 12 then ⟨d.year, d.month + 1, 1⟩
  else ⟨d.year + 1, 1, 1⟩

/-- The previous calendar day (equals Python `d - timedelta(days=1)` on
well-formed dates). -/
def Date.predD (d : Date) : Date :=
  if 1 < d.day then ⟨d.year, d.month, d.day - 1⟩
  else if 1 < d.month then ⟨d.year, d.month - 1, daysInMonth d.year (d.month - 1)⟩
  else ⟨d.year - 1, 12, 31⟩

/-- Python `d + timedelta(days=n)` for `n ≥ 0`. -/
def addDays (d : Date) (n : Nat) : Date := Date.succD^[n] d

/-- Python `d - timedelta(days=n)` for `n ≥ 0`. -/
def subDays (d : Date) (n : Nat) : Date := Date.predD^[n] d

/-- Sakamoto month offset table (index by month). -/
def monthOffset (m : Int) : Int :=
  if m = 1 then 0 else if m = 2 then 3 else if m = 3 then 2
  else if m = 4 then 5 else if m = 5 then 0 else if m = 6 then 3
  else if m = 7 then 5 else if m = 8 then 1 else if m = 9 then 4
  else if m = 10 then 6 else if m = 11 then 2 else 4

/-- Sakamoto year adjustment: January and February count with the previous
year. -/
def yearAdj (y m : Int) : Int := if m < 3 then y - 1 else y

/-- Year-and-month part of Sakamoto's day-of-week formula. -/
def sakamotoBase (y m : Int) : Int :=
  yearAdj y m + yearAdj y m / 4 - yearAdj y m / 100
    + yearAdj y m / 400 + monthOffset m

/-- Model of `datetime.date.weekday` (Monday = 0, Sunday = 6): Sakamoto's
day-of-week formula for the proleptic Gregorian calendar, shifted to a
Monday-based week. -/
def Date.weekday (dt : Date) : Int :=
  ((sakamotoBase dt.year dt.month + dt.day) % 7 + 6) % 7

/-- Python whitespace as stripped by `str.strip()`. -/
def isPySpace (c : Char) : Bool :=
  c = ' ' ∨ c = '\t' ∨ c = '\n' ∨ c = '\r' ∨ c = '\x0b' ∨ c = '\x0c'

/-- Python `str.strip()` (for the claims only ASCII phrases matter). -/
def pyStrip (s : String) : String :=
  ⟨((s.data.dropWhile isPySpace).reverse.dropWhile isPySpace).reverse⟩

/-- ASCII lower-casing of one character. -/
def lowerChar (c : Char) : Char :=
  if 'A' ≤ c ∧ c ≤ 'Z' then Char.ofNat (c.toNat + 32) else c

/-- Python `str.lower()` (for the claims only ASCII phrases matter). -/
def pyLower (s : String) : String := ⟨s.data.map lowerChar⟩

/-- `value.strip().lower()`, the normalisation applied by the date helpers. -/
def pyClean (s : String) : String := pyLower (pyStrip s)

/-- Truthiness of an `Optional[str]` argument (`None` and `""` are falsy). -/
def optTruthy : Option String → Bool
  | none => false
  | some s => s ≠ ""

/-- `value.strip().lower()` of an `Optional[str]` (callers only use it on
present values). -/
def optClean : Option String → String
  | none => ""
  | some s => pyClean s

/-- `s.split(sep)` for a one-character separator, over char lists. -/
def splitChar (sep : Char) : List Char → List Char → List (List Char)
  | [], acc => [acc.reverse]
  | c :: rest, acc =>
    if c = sep then acc.reverse :: splitChar sep rest []
    else splitChar sep rest (c :: acc)

/-- Parse a run of decimal digits (non-empty, digits only). -/
def digitsToNat (l : List Char) : Option Nat :=
  if l ≠ [] ∧ l.all Char.isDigit then
    some (l.foldl (fun a c => 10 * a + (c.toNat - 48)) 0)
  else none

/-- Model of `datetime.datetime.strptime(value, "%Y-%m-%d").date()` wrapped in
`_parse_iso_date`: `%Y` matches 1-4 digits, `%m` and `%d` 1-2 digits, and the
resulting components must form a well-formed date with year at least 1
(`datetime.MINYEAR`). Returns `none` where Python raises `ValueError`. -/
def parse_iso_date (s : String) : Option Date :=
  match splitChar '-' s.data [] with
  | [ys, ms, ds] =>
    match digitsToNat ys, digitsToNat ms, digitsToNat ds with
    | some y, some m, some d =>
      if ys.length ≤ 4 ∧ ms.length ≤ 2 ∧ ds.length ≤ 2
          ∧ 1 ≤ y ∧ 1 ≤ m ∧ m ≤ 12 ∧ 1 ≤ d ∧ (d : Int) ≤ daysInMonth (y : Int) (m : Int)
      then some ⟨(y : Int), (m : Int), (d : Int)⟩
      else none
    | _, _, _ => none
  | _ => none

/-- `_parse_single_date` from recommendations.py.  The current date
(`_today()`) is passed explicitly as `today`. -/
def parse_single_date (today : Date) (value : Option String) : Option Date :=
  match value with
  | none => none
  | some v =>
    if v = "" then none
    else
      let c := pyClean v
      if c ∈ (["today", "current day", "now"] : List String) then some today
      else if c ∈ (["yesterday", "prev day", "previous day"] : List String) then
        some today.predD
      else if c ∈ (["tomorrow", "next day"] : List String) then some today
      else parse_iso_date c

/-- `_last_day_of_month` from recommendations.py: December is replaced by day
31, otherwise the first day of the next month minus one day. -/
def last_day_of_month (dv : Date) : Date :=
  if dv.month = 12 then ⟨dv.year, dv.month, 31⟩
  else Date.predD ⟨dv.year, dv.month + 1, 1⟩

/-- `_resolve_relative_range` from recommendations.py. -/
def resolve_relative_range (today : Date) (value : Option String) :
    Option (Date × Date) :=
  match value with
  | none => none
  | some v =>
    if v = "" then none
    else
      let c := pyClean v
      if c ∈ (["today", "current day", "now"] : List String) then
        some (today, today)
      else if c ∈ (["yesterday", "prev day", "previous day"] : List String) then
        let d := today.predD
        some (d, d)
      else if c ∈ (["this week", "current week"] : List String) then
        let start := subDays today today.weekday.toNat
        some (start, addDays start 6)
      else if c ∈ (["last week", "previous week"] : List String) then
        let currentStart := subDays today today.weekday.toNat
        some (subDays currentStart 7, subDays currentStart 1)
      else if c ∈ (["this week to date", "current week to date", "week to date"] : List String) then
        some (subDays today today.weekday.toNat, today)
      else if c ∈ (["this month", "current month"] : List String) then
        some (⟨today.year, today.month, 1⟩, last_day_of_month today)
      else if c ∈ (["this month to date", "current month to date", "month to date"] : List String) then
        some (⟨today.year, today.month, 1⟩, today)
      else if c ∈ (["last month", "previous month"] : List String) then
        let lastPrev := Date.predD ⟨today.year, today.month, 1⟩
        some (⟨lastPrev.year, lastPrev.month, 1⟩, lastPrev)
      else if c ∈ (["last 7 days", "past 7 days", "previous 7 days", "last seven days"] : List String) then
        some (subDays today 6, today)
      else if c ∈ (["last 14 days", "past 14 days", "previous 14 days", "last two weeks"] : List String) then
        some (subDays today 13, today)
      else if c ∈ (["last 28 days", "past 28 days", "previous 28 days",
                    "last four weeks", "past four weeks", "previous four weeks"] : List String) then
        some (subDays today 27, today)
      else if c ∈ (["last 90 days", "past 90 days", "previous 90 days", "last three months"] : List String) then
        some (subDays today 89, today)
      else none

/-- All phrases recognised by `_resolve_relative_range` (the union of its
membership tables, in source order). -/
def relativeRangePhrases : List String :=
  ["today", "current day", "now",
   "yesterday", "prev day", "previous day",
   "this week", "current week",
   "last week", "previous week",
   "this week to date", "current week to date", "week to date",
   "this month", "current month",
   "this month to date", "current month to date", "month to date",
   "last month", "previous month",
   "last 7 days", "past 7 days", "previous 7 days", "last seven days",
   "last 14 days", "past 14 days", "previous 14 days", "last two weeks",
   "last 28 days", "past 28 days", "previous 28 days",
   "last four weeks", "past four weeks", "previous four weeks",
   "last 90 days", "past 90 days", "previous 90 days", "last three months"]

/-- `_clamp_range_to_today` from recommendations.py. -/
def clamp_range_to_today (today s e : Date) : Date × Date :=
  let e' := if today.lt e then today else e
  let s' := if e'.lt s then e' else s
  (s', e')

/-- One relative-phrase attempt inside `_resolve_date_range`: a truthy
`primary` whose phrase resolves, accepted when `other` is falsy or equal
(after strip/lower) to `primary`, yields the clamped relative range. -/
def relAttempt (today : Date) (primary other : Option String) :
    Option (Date × Date) :=
  if optTruthy primary then
    match resolve_relative_range today primary with
    | some r =>
      if ¬ optTruthy other ∨ optClean other = optClean primary then
        some (clamp_range_to_today today r.1 r.2)
      else none
    | none => none
  else none

/-- Tail of `_resolve_date_range`: clamp to today, then swap if still
**reversed** (the swap is dead after clamping, but kept as in the source). -/
def finishPair (today s0 e0 : Date) : Date × Date :=
  if (clamp_range_to_today today s0 e0).2.lt (clamp_range_to_today today s0 e0).1
  then ((clamp_range_to_today today s0 e0).2, (clamp_range_to_today today s0 e0).1)
  else clamp_range_to_today today s0 e0

/-- `_resolve_date_range` from recommendations.py; `Except.error` models the
raised `ValueError` (with its message). -/
def resolve_date_range (today : Date) (startStr endStr : Option String) :
    Except String (Date × Date) :=
  match relAttempt today startStr endStr with
  | some r => .ok r
  | none =>
    match relAttempt today endStr startStr with
    | some r => .ok r
    | none =>
      match parse_single_date today startStr, parse_single_date today endStr with
      | none, none => .error "Unable to resolve date range from inputs."
      | some s0, none => .ok (finishPair today s0 s0)
      | none, some e0 => .ok (finishPair today e0 e0)
      | some s0, some e0 => .ok (finishPair today s0 e0)

/-- The `anchor` local of `_resolve_anchor_period` (used when the anchor value
is not a relative phrase): the parsed anchor capped at today, else today. -/
def anchorOf (today : Date) (anchorValue : Option String) : Date :=
  if optTruthy anchorValue then
    match parse_single_date today anchorValue with
    | some p => dmin p today
    | none => today
  else today

/-- The raw (pre-clamp) period window of `_resolve_anchor_period`. -/
def periodWindow (period : String) (anchor : Date) : Date × Date :=
  if period = "daily" then (anchor, anchor)
  else if period = "weekly" then
    let st := subDays anchor anchor.weekday.toNat
    (st, addDays st 6)
  else if period = "monthly" then
    (⟨anchor.year, anchor.month, 1⟩, last_day_of_month anchor)
  else (anchor, anchor)

/-- `_resolve_anchor_period` from recommendations.py; returns
(start, end, anchor_used). -/
def resolve_anchor_period (today : Date) (period : String)
    (anchorValue : Option String) : Date × Date × Date :=
  match (if optTruthy anchorValue then resolve_relative_range today anchorValue
         else none) with
  | some r =>
    let c := clamp_range_to_today today r.1 r.2
    (c.1, c.2, c.2)
  | none =>
    let anchor := anchorOf today anchorValue
    let se := periodWindow period anchor
    let c := clamp_range_to_today today se.1 se.2
    (c.1, c.2, dmin anchor c.2)

/-! ### Order and calendar lemmas -/

theorem Date.le_refl (a : Date) : a.le a := Or.inr rfl

theorem Date.le_of_not_lt {a b : Date} (h : ¬ a.lt b) : b.le a := by
  obtain ⟨ay, am, ad⟩ := a; obtain ⟨by_, bm, bd⟩ := b
  simp only [Date.lt, Date.le, Date.mk.injEq] at *
  omega

theorem Date.not_lt_of_le {a b : Date} (h : a.le b) : ¬ b.lt a := by
  obtain ⟨ay, am, ad⟩ := a; obtain ⟨by_, bm, bd⟩ := b
  simp only [Date.lt, Date.le, Date.mk.injEq] at *
  omega

theorem dmin_le_right (a b : Date) : (dmin a b).le b := by
  unfold dmin
  split
  · exact Date.le_refl b
  · exact Date.le_of_not_lt (by assumption)

theorem clamp_range_spec (today s e : Date) :
    (clamp_range_to_today today s e).1.le (clamp_range_to_today today s e).2 ∧
    (clamp_range_to_today today s e).2.le today := by
  obtain ⟨ty, tm, td⟩ := today; obtain ⟨sy, sm, sd⟩ := s; obtain ⟨ey, em, ed⟩ := e
  simp only [clamp_range_to_today, Date.lt, Date.le, Date.mk.injEq]
  split_ifs <;> simp_all <;> omega

theorem relAttempt_spec (today : Date) (p o : Option String) (r : Date × Date)
    (h : relAttempt today p o = some r) : r.1.le r.2 ∧ r.2.le today := by
  unfold relAttempt at h
  split at h
  · split at h
    · split at h
      · rename_i r0 _ _
        injection h with h1
        have hc := clamp_range_spec today r0.1 r0.2
        rw [h1] at hc; exact hc
      · exact absurd h (by simp)
    · exact absurd h (by simp)
  · exact absurd h (by simp)

theorem finishPair_spec (today s0 e0 : Date) :
    (finishPair today s0 e0).1.le (finishPair today s0 e0).2 ∧
    (finishPair today s0 e0).2.le today := by
  unfold finishPair
  have hc := clamp_range_spec today s0 e0
  split
  · rename_i hlt
    exact absurd hlt (Date.not_lt_of_le hc.1)
  · exact hc

theorem resolve_date_range_ordered (today : Date) (startStr endStr : Option String)
    (s e : Date) (h : resolve_date_range today startStr endStr = .ok (s, e)) :
    s.le e ∧ e.le today := by
  unfold resolve_date_range at h
  split at h
  · rename_i r hr
    injection h with h1
    rw [h1] at hr
    exact relAttempt_spec today startStr endStr _ hr
  · split at h
    · rename_i r hr
      injection h with h1
      rw [h1] at hr
      exact relAttempt_spec today endStr startStr _ hr
    · split at h
      · exact absurd h (by simp)
      · rename_i s0 _ _
        injection h with h1
        have hf := finishPair_spec today s0 s0
        rw [h1] at hf; exact hf
      · rename_i e0 _ _
        injection h with h1
        have hf := finishPair_spec today e0 e0
        rw [h1] at hf; exact hf
      · rename_i s0 e0 _ _
        injection h with h1
        have hf := finishPair_spec today s0 e0
        rw [h1] at hf; exact hf

theorem resolve_anchor_period_spec (today : Date) (period : String)
    (anchorValue : Option String) :
    (resolve_anchor_period today period anchorValue).1.le
      (resolve_anchor_period today period anchorValue).2.1 ∧
    (resolve_anchor_period today period anchorValue).2.1.le today ∧
    (resolve_anchor_period today period anchorValue).2.2.le
      (resolve_anchor_period today period anchorValue).2.1 := by
  unfold resolve_anchor_period
  split
  · rename_i r _
    have hc := clamp_range_spec today r.1 r.2
    exact ⟨hc.1, hc.2, Date.le_refl _⟩
  · have hc := clamp_range_spec today
      (periodWindow period (anchorOf today anchorValue)).1
      (periodWindow period (anchorOf today anchorValue)).2
    exact ⟨hc.1, hc.2, dmin_le_right _ _⟩
/-! ### Calendar arithmetic lemmas (used to justify the week/month phrasing
of the date-range claims) -/

theorem isLeap_iff (y : Int) :
    isLeap y = true ↔ ((y % 4 = 0 ∧ ¬ y % 100 = 0) ∨ y % 400 = 0) := by
  simp [isLeap]

theorem daysInMonth_ge (y m : Int) : 28 ≤ daysInMonth y m := by
  unfold daysInMonth; split_ifs <;> omega

theorem daysInMonth_le (y m : Int) : daysInMonth y m ≤ 31 := by
  unfold daysInMonth; split_ifs <;> omega

theorem daysInMonth_dec (y : Int) : daysInMonth y 12 = 31 := by
  unfold daysInMonth; norm_num

theorem Date.succD_mk (y m dd : Int) :
    Date.succD ⟨y, m, dd⟩ =
      (if dd < daysInMonth y m then (⟨y, m, dd + 1⟩ : Date)
       else if m < 12 then ⟨y, m + 1, 1⟩ else ⟨y + 1, 1, 1⟩) := rfl

theorem Date.predD_mk (y m dd : Int) :
    Date.predD ⟨y, m, dd⟩ =
      (if 1 < dd then (⟨y, m, dd - 1⟩ : Date)
       else if 1 < m then ⟨y, m - 1, daysInMonth y (m - 1)⟩
       else ⟨y - 1, 12, 31⟩) := rfl

theorem Date.valid_mk (y m dd : Int) :
    Date.Valid ⟨y, m, dd⟩ ↔
      (1 ≤ m ∧ m ≤ 12 ∧ 1 ≤ dd ∧ dd ≤ daysInMonth y m) := Iff.rfl

theorem Date.weekday_mk (y m dd : Int) :
    Date.weekday ⟨y, m, dd⟩ = ((sakamotoBase y m + dd) % 7 + 6) % 7 := rfl

theorem Date.predD_valid {d : Date} (hv : d.Valid) : d.predD.Valid := by
  obtain ⟨y, m, dd⟩ := d
  have hb : 1 ≤ m ∧ m ≤ 12 ∧ 1 ≤ dd ∧ dd ≤ daysInMonth y m := hv
  rw [Date.predD_mk]
  split_ifs with hd hm
  · rw [Date.valid_mk]
    omega
  · rw [Date.valid_mk]
    have := daysInMonth_ge y (m - 1)
    omega
  · rw [Date.valid_mk]
    have h12 := daysInMonth_dec (y - 1)
    omega

theorem Date.succD_predD {d : Date} (hv : d.Valid) : d.predD.succD = d := by
  obtain ⟨y, m, dd⟩ := d
  have hb : 1 ≤ m ∧ m ≤ 12 ∧ 1 ≤ dd ∧ dd ≤ daysInMonth y m := hv
  rw [Date.predD_mk]
  split_ifs with hd hm
  · rw [Date.succD_mk]
    split_ifs with c1 c2
    · simp only [Date.mk.injEq, true_and, and_true]; omega
    · exfalso; omega
    · exfalso; omega
  · rw [Date.succD_mk]
    split_ifs with c1 c2
    · exfalso; omega
    · simp only [Date.mk.injEq, true_and, and_true]; omega
    · exfalso; omega
  · rw [Date.succD_mk]
    have h12 := daysInMonth_dec (y - 1)
    split_ifs with c1 c2
    · exfalso; omega
    · exfalso; omega
    · simp only [Date.mk.injEq, true_and, and_true]; omega

theorem subDays_valid {d : Date} (hv : d.Valid) (n : Nat) : (subDays d n).Valid := by
  induction n with
  | zero => exact hv
  | succ k ih =>
    have h1 : subDays d (k + 1) = (subDays d k).predD := by
      simp [subDays, Function.iterate_succ_apply']
    rw [h1]
    exact Date.predD_valid ih

theorem addDays_subDays_cancel {d : Date} (hv : d.Valid) (n : Nat) :
    addDays (subDays d n) n = d := by
  induction n with
  | zero => simp [addDays, subDays]
  | succ k ih =>
    have h1 : subDays d (k + 1) = (subDays d k).predD := by
      simp [subDays, Function.iterate_succ_apply']
    have h2 : addDays (subDays d (k + 1)) (k + 1)
        = addDays (Date.succD (subDays d (k + 1))) k := by
      simp [addDays, Function.iterate_succ_apply]
    rw [h2, h1, Date.succD_predD (subDays_valid hv k)]
    exact ih

theorem addDays_six_of_subDays_seven {x : Date} (hv : x.Valid) :
    addDays (subDays x 7) 6 = subDays x 1 := by
  have h7 : subDays x 7 = subDays (subDays x 1) 6 := by
    simp [subDays, ← Function.iterate_add_apply]
  rw [h7]
  exact addDays_subDays_cancel (subDays_valid hv 1) 6
theorem Date.year_mk (y m d : Int) : (⟨y, m, d⟩ : Date).year = y := rfl

theorem Date.month_mk (y m d : Int) : (⟨y, m, d⟩ : Date).month = m := rfl

theorem Date.day_mk (y m d : Int) : (⟨y, m, d⟩ : Date).day = d := rfl

theorem Date.weekday_range (d : Date) : 0 ≤ d.weekday ∧ d.weekday < 7 := by
  obtain ⟨y, m, dd⟩ := d
  rw [Date.weekday_mk]
  generalize sakamotoBase y m + dd = B
  omega

theorem Date.weekday_predD {d : Date} (hv : d.Valid) :
    d.predD.weekday = (d.weekday + 6) % 7 := by
  obtain ⟨y, m, dd⟩ := d
  have hb : 1 ≤ m ∧ m ≤ 12 ∧ 1 ≤ dd ∧ dd ≤ daysInMonth y m := hv
  rw [Date.predD_mk]
  split_ifs with hd hm
  · rw [Date.weekday_mk, Date.weekday_mk]
    generalize sakamotoBase y m = B
    omega
  · have hdd : dd = 1 := by omega
    subst hdd
    have hm2 : 2 ≤ m := by omega
    have hm12 : m ≤ 12 := hb.2.1
    have hleap := isLeap_iff y
    have e4 : (y % 4 = 0 ∧ (y - 1) / 4 = y / 4 - 1) ∨ (¬ y % 4 = 0 ∧ (y - 1) / 4 = y / 4) := by
      omega
    have e100 : (y % 100 = 0 ∧ (y - 1) / 100 = y / 100 - 1) ∨
        (¬ y % 100 = 0 ∧ (y - 1) / 100 = y / 100) := by omega
    have e400 : (y % 400 = 0 ∧ (y - 1) / 400 = y / 400 - 1) ∨
        (¬ y % 400 = 0 ∧ (y - 1) / 400 = y / 400) := by omega
    interval_cases m
    · norm_num [Date.weekday_mk, sakamotoBase, yearAdj, monthOffset, daysInMonth]
      omega
    · norm_num [Date.weekday_mk, sakamotoBase, yearAdj, monthOffset, daysInMonth]
      cases hc : isLeap y
      · rw [hc] at hleap
        simp only [Bool.false_eq_true, false_iff] at hleap
        norm_num
        omega
      · rw [hc] at hleap
        simp only [true_iff] at hleap
        norm_num
        omega
    · norm_num [Date.weekday_mk, sakamotoBase, yearAdj, monthOffset, daysInMonth]
      omega
    · norm_num [Date.weekday_mk, sakamotoBase, yearAdj, monthOffset, daysInMonth]
      omega
    · norm_num [Date.weekday_mk, sakamotoBase, yearAdj, monthOffset, daysInMonth]
      omega
    · norm_num [Date.weekday_mk, sakamotoBase, yearAdj, monthOffset, daysInMonth]
      omega
    · norm_num [Date.weekday_mk, sakamotoBase, yearAdj, monthOffset, daysInMonth]
      omega
    · norm_num [Date.weekday_mk, sakamotoBase, yearAdj, monthOffset, daysInMonth]
      omega
    · norm_num [Date.weekday_mk, sakamotoBase, yearAdj, monthOffset, daysInMonth]
      omega
    · norm_num [Date.weekday_mk, sakamotoBase, yearAdj, monthOffset, daysInMonth]
      omega
    · norm_num [Date.weekday_mk, sakamotoBase, yearAdj, monthOffset, daysInMonth]
      omega
  · have hdd : dd = 1 := by omega
    have hm1 : m = 1 := by omega
    subst hdd; subst hm1
    norm_num [Date.weekday_mk, sakamotoBase, yearAdj, monthOffset]
    omega

theorem Date.weekday_subDays {d : Date} (hv : d.Valid) (k : Nat) :
    (subDays d k).weekday = (d.weekday - k) % 7 := by
  induction k with
  | zero =>
    have hr := Date.weekday_range d
    show d.weekday = (d.weekday - (0 : Nat)) % 7
    push_cast
    omega
  | succ n ih =>
    have h1 : subDays d (n + 1) = (subDays d n).predD := by
      simp [subDays, Function.iterate_succ_apply']
    rw [h1, Date.weekday_predD (subDays_valid hv n), ih]
    have hr := Date.weekday_range d
    push_cast
    omega

theorem Date.weekday_subDays_self {d : Date} (hv : d.Valid) :
    (subDays d d.weekday.toNat).weekday = 0 := by
  have hr := Date.weekday_range d
  rw [Date.weekday_subDays hv]
  rw [Int.toNat_of_nonneg hr.1]
  omega

theorem last_day_of_month_mk (y m dd : Int) :
    last_day_of_month ⟨y, m, dd⟩ =
      (if m = 12 then (⟨y, m, 31⟩ : Date) else Date.predD ⟨y, m + 1, 1⟩) := rfl

theorem last_day_of_month_eq {d : Date} (hv : d.Valid) :
    last_day_of_month d = ⟨d.year, d.month, daysInMonth d.year d.month⟩ := by
  obtain ⟨y, m, dd⟩ := d
  have hb : 1 ≤ m ∧ m ≤ 12 ∧ 1 ≤ dd ∧ dd ≤ daysInMonth y m := hv
  rw [last_day_of_month_mk]
  simp only [Date.year_mk, Date.month_mk]
  split_ifs with h12
  · subst h12
    rw [daysInMonth_dec]
  · rw [Date.predD_mk]
    split_ifs with c1 c2
    · exfalso; omega
    · have harg : m + 1 - 1 = m := by ring
      rw [harg]
    · exfalso; omega

theorem predD_first_eq_last_day {y m : Int} (h1 : 1 ≤ m) (h2 : m ≤ 12) :
    Date.predD ⟨y, m, 1⟩ =
      last_day_of_month ⟨(Date.predD ⟨y, m, 1⟩).year, (Date.predD ⟨y, m, 1⟩).month, 1⟩ := by
  rw [Date.predD_mk]
  split_ifs with c1 c2
  · exfalso; omega
  · simp only [Date.year_mk, Date.month_mk]
    rw [last_day_of_month_mk]
    split_ifs with c3
    · exfalso; omega
    · rw [Date.predD_mk]
      split_ifs with c4
      · have harg : m - 1 + 1 - 1 = m - 1 := by ring
        rw [harg]
      · exfalso; omega
  · simp only [Date.year_mk, Date.month_mk]
    rw [last_day_of_month_mk]
    norm_num
/-! ### Claim C1: the relative-phrase table of `_resolve_relative_range` -/

/-- The Monday of the week containing `d` (today minus `weekday` days, with
`weekday` being 0 on a Monday). -/
def mondayOfWeek (d : Date) : Date := subDays d d.weekday.toNat

theorem resolve_none_of_not_mem (today : Date) (v : String)
    (hneg : pyClean v ∉ relativeRangePhrases) :
    resolve_relative_range today (some v) = none := by
  by_cases he : v = ""
  · simp [resolve_relative_range, he]
  · simp only [relativeRangePhrases, List.mem_cons, List.not_mem_nil, or_false,
      not_or] at hneg
    obtain ⟨n1, n2, n3, n4, n5, n6, n7, n8, n9, n10, n11, n12, n13, n14, n15,
      n16, n17, n18, n19, n20, n21, n22, n23, n24, n25, n26, n27, n28, n29,
      n30, n31, n32, n33, n34, n35, n36, n37, n38⟩ := hneg
    simp [resolve_relative_range, he, n1, n2, n3, n4, n5, n6, n7, n8, n9, n10,
      n11, n12, n13, n14, n15, n16, n17, n18, n19, n20, n21, n22, n23, n24,
      n25, n26, n27, n28, n29, n30, n31, n32, n33, n34, n35, n36, n37, n38]

theorem last_month_shape (y m : Int) :
    ∃ py pm, Date.predD ⟨y, m, 1⟩ = ⟨py, pm, daysInMonth py pm⟩ := by
  rw [Date.predD_mk]
  split_ifs with c1 c2
  · exfalso; omega
  · exact ⟨y, m - 1, rfl⟩
  · exact ⟨y - 1, 12, by rw [daysInMonth_dec]⟩

/-- C1: each date phrase listed in the specification resolves, relative to
today, to the stated range: the last-28-days synonyms to (today-27, today);
"this month to date" to (first of month, today); last 7/14/90 days to
(today-6, today), (today-13, today), (today-89, today); "this week" to the
Monday of the current week through the following Sunday (Monday + 6 days,
and the start indeed has weekday 0); "last week" to the Monday of the
previous week through the following Sunday; "this month" to the first
through last day of the current month; "last month" to the first through
last day of the previous month; "today" and "yesterday" to the matching
single-day ranges; and any phrase whose normalisation is outside the
recognised tables (plus a `None` input) resolves to no range. -/
theorem claim_C1_relative_range_table (today : Date) (hv : today.Valid) :
    (∀ v ∈ (["last 28 days", "past 28 days", "previous 28 days",
             "last four weeks", "past four weeks", "previous four weeks"] : List String),
        resolve_relative_range today (some v) = some (subDays today 27, today)) ∧
    resolve_relative_range today (some "this month to date") =
      some (⟨today.year, today.month, 1⟩, today) ∧
    resolve_relative_range today (some "last 7 days") = some (subDays today 6, today) ∧
    resolve_relative_range today (some "last 14 days") = some (subDays today 13, today) ∧
    resolve_relative_range today (some "last 90 days") = some (subDays today 89, today) ∧
    (resolve_relative_range today (some "this week") =
        some (mondayOfWeek today, addDays (mondayOfWeek today) 6) ∧
      (mondayOfWeek today).weekday = 0) ∧
    (resolve_relative_range today (some "last week") =
        some (subDays (mondayOfWeek today) 7, addDays (subDays (mondayOfWeek today) 7) 6) ∧
      (subDays (mondayOfWeek today) 7).weekday = 0) ∧
    resolve_relative_range today (some "this month") =
      some (⟨today.year, today.month, 1⟩,
            ⟨today.year, today.month, daysInMonth today.year today.month⟩) ∧
    (∃ py pm, Date.predD ⟨today.year, today.month, 1⟩ = ⟨py, pm, daysInMonth py pm⟩ ∧
      resolve_relative_range today (some "last month") =
        some (⟨py, pm, 1⟩, ⟨py, pm, daysInMonth py pm⟩)) ∧
    resolve_relative_range today (some "today") = some (today, today) ∧
    resolve_relative_range today (some "yesterday") = some (today.predD, today.predD) ∧
    (∀ v : String, pyClean v ∉ relativeRangePhrases →
        resolve_relative_range today (some v) = none) ∧
    resolve_relative_range today none = none := by
  have hmon : (mondayOfWeek today).Valid := subDays_valid hv _
  refine ⟨?_, rfl, rfl, rfl, rfl, ⟨rfl, Date.weekday_subDays_self hv⟩,
    ⟨?_, ?_⟩, ?_, ?_, rfl, rfl, resolve_none_of_not_mem today, rfl⟩
  · intro v hvm
    fin_cases hvm <;> rfl
  · have hcode : resolve_relative_range today (some "last week") =
        some (subDays (mondayOfWeek today) 7, subDays (mondayOfWeek today) 1) := rfl
    rw [hcode, addDays_six_of_subDays_seven hmon]
  · rw [Date.weekday_subDays hmon,
      show (mondayOfWeek today).weekday = 0 from Date.weekday_subDays_self hv]
    decide
  · have hcode : resolve_relative_range today (some "this month") =
        some (⟨today.year, today.month, 1⟩, last_day_of_month today) := rfl
    rw [hcode, last_day_of_month_eq hv]
  · obtain ⟨py, pm, hpred⟩ := last_month_shape today.year today.month
    refine ⟨py, pm, hpred, ?_⟩
    have hcode : resolve_relative_range today (some "last month") =
        some (⟨(Date.predD ⟨today.year, today.month, 1⟩).year,
               (Date.predD ⟨today.year, today.month, 1⟩).month, 1⟩,
              Date.predD ⟨today.year, today.month, 1⟩) := rfl
    rw [hcode, hpred]

/-- Witness for C1 at the concrete date 2026-10-14 with a listed phrase, an
unlisted phrase and a `None` input. -/
theorem claim_C1_witness :
    Date.Valid ⟨2026, 10, 14⟩ ∧
    ("past four weeks" ∈ (["last 28 days", "past 28 days", "previous 28 days",
        "last four weeks", "past four weeks", "previous four weeks"] : List String) ∧
      resolve_relative_range ⟨2026, 10, 14⟩ (some "past four weeks") =
        some (subDays ⟨2026, 10, 14⟩ 27, ⟨2026, 10, 14⟩)) ∧
    (pyClean "tuesday fortnight" ∉ relativeRangePhrases ∧
      resolve_relative_range ⟨2026, 10, 14⟩ (some "tuesday fortnight") = none) := by
  have h := claim_C1_relative_range_table ⟨2026, 10, 14⟩ (by decide)
  refine ⟨by decide, ⟨by decide, h.1 "past four weeks" (by decide)⟩,
    ⟨by decide, h.2.2.2.2.2.2.2.2.2.2.2.1 "tuesday fortnight" (by decide)⟩⟩
/-! ### Claim C9: resolved ranges are ordered and capped at today -/

/-- C9: every range produced by `_resolve_date_range` (when it returns) and by
`_resolve_anchor_period` satisfies start ≤ end and end ≤ today, and
`_resolve_anchor_period` additionally returns anchor_used ≤ end. -/
theorem claim_C9_ranges_ordered_and_capped (today : Date) :
    (∀ (startStr endStr : Option String) (s e : Date),
        resolve_date_range today startStr endStr = .ok (s, e) →
        s.le e ∧ e.le today) ∧
    (∀ (period : String) (anchorValue : Option String),
        (resolve_anchor_period today period anchorValue).1.le
          (resolve_anchor_period today period anchorValue).2.1 ∧
        (resolve_anchor_period today period anchorValue).2.1.le today ∧
        (resolve_anchor_period today period anchorValue).2.2.le
          (resolve_anchor_period today period anchorValue).2.1) :=
  ⟨fun a b s e h => resolve_date_range_ordered today a b s e h,
   fun p a => resolve_anchor_period_spec today p a⟩

/-- Witness for C9 at 2026-10-14 with the inputs ("last week", None) and
("monthly", "2026-10-20"): concrete ordered, capped ranges. -/
theorem claim_C9_witness :
    (Date.le ⟨2026, 10, 5⟩ ⟨2026, 10, 11⟩ ∧ Date.le ⟨2026, 10, 11⟩ ⟨2026, 10, 14⟩) ∧
    ((resolve_anchor_period ⟨2026, 10, 14⟩ "monthly" (some "2026-10-20")).1.le
        (resolve_anchor_period ⟨2026, 10, 14⟩ "monthly" (some "2026-10-20")).2.1 ∧
      (resolve_anchor_period ⟨2026, 10, 14⟩ "monthly" (some "2026-10-20")).2.1.le
        ⟨2026, 10, 14⟩ ∧
      (resolve_anchor_period ⟨2026, 10, 14⟩ "monthly" (some "2026-10-20")).2.2.le
        (resolve_anchor_period ⟨2026, 10, 14⟩ "monthly" (some "2026-10-20")).2.1) :=
  ⟨(claim_C9_ranges_ordered_and_capped ⟨2026, 10, 14⟩).1 (some "last week") none
      ⟨2026, 10, 5⟩ ⟨2026, 10, 11⟩ rfl,
   (claim_C9_ranges_ordered_and_capped ⟨2026, 10, 14⟩).2 "monthly" (some "2026-10-20")⟩
/-! ### Python values, truthiness and the remote-client interface -/

/-- Model of a Python runtime value as handled by these tools: JSON-like data
from the remote client, plus `foreign` for arbitrary other objects (carrying
whether `json.dumps(..., default=str)` can serialise it, and its `str()`
rendering). Numbers (int/float) are collapsed to exact rationals. -/
inductive PyVal where
  | null
  | bool (b : Bool)
  | num (q : ℚ)
  | str (s : String)
  | list (xs : List PyVal)
  | dict (kvs : List (String × PyVal))
  | foreign (serializable : Bool) (strRepr : String)
deriving Repr

/-- Python truthiness (`bool(v)`). -/
def truthy : PyVal → Bool
  | .null => false
  | .bool b => b
  | .num q => q ≠ 0
  | .str s => s ≠ ""
  | .list xs => !xs.isEmpty
  | .dict kvs => !kvs.isEmpty
  | .foreign _ _ => true

/-- `isinstance(v, dict)`. -/
def isDict : PyVal → Bool
  | .dict _ => true
  | _ => false

/-- `isinstance(v, list)`. -/
def isList : PyVal → Bool
  | .list _ => true
  | _ => false

/-- `isinstance(v, str)`. -/
def isStr : PyVal → Bool
  | .str _ => true
  | _ => false

/-- `isinstance(v, (int, float))` with the numeric value (`bool` is a
subclass of `int` in Python, so booleans count as 1/0). -/
def toNum : PyVal → Option ℚ
  | .num q => some q
  | .bool b => some (if b then 1 else 0)
  | _ => none

/-- First binding of a key in a dict body (dicts preserve insertion order and
never hold duplicate keys). -/
def lookupKey : List (String × PyVal) → String → Option PyVal
  | [], _ => none
  | (k, v) :: rest, key => if k = key then some v else lookupKey rest key

/-- `v.get(key)` for `v` known to be a dict (returns `None` when absent);
on non-dicts we return `None` as well, but the source only uses this under
an `isinstance(v, dict)` guard. -/
def dget (v : PyVal) (key : String) : PyVal :=
  match v with
  | .dict kvs => (lookupKey kvs key).getD .null
  | _ => .null

/-- `v.get(key, default)` (presence-sensitive) for `v` known to be a dict. -/
def dgetD (v : PyVal) (key : String) (default : PyVal) : PyVal :=
  match v with
  | .dict kvs => (lookupKey kvs key).getD default
  | _ => default

/-- `key in v` for `v` known to be a dict. -/
def hasKey (v : PyVal) (key : String) : Bool :=
  match v with
  | .dict kvs => (lookupKey kvs key).isSome
  | _ => false

/-- Python `a or b` on values. -/
def pyOr (a b : PyVal) : PyVal := if truthy a then a else b

/-- Python `int(q)`: truncation toward zero. -/
def pyTrunc (q : ℚ) : Int := if 0 ≤ q then ⌊q⌋ else ⌈q⌉

/-- Python 3 `round(q)`: nearest integer, ties to even. -/
def pyRound (q : ℚ) : Int :=
  let f := ⌊q⌋
  let r := q - (f : ℚ)
  if r < 1/2 then f
  else if 1/2 < r then f + 1
  else if Even f then f else f + 1

/-- Python `round(q, 2)` on our exact-rational model of floats. -/
def round2 (q : ℚ) : ℚ := (pyRound (q * 100) : ℚ) / 100

/-- Python `round(q, 1)` on our exact-rational model of floats. -/
def round1 (q : ℚ) : ℚ := (pyRound (q * 10) : ℚ) / 10

/-- The authenticated remote client: each method either returns a value or
raises (modelled as `Except.error` carrying `str(e)`).  Dates are passed as
the formatted strings the source sends. -/
structure Client where
  get_activities_by_date : String → String → String → Except String PyVal
  get_sleep_data : String → Except String PyVal
  get_stress_data : String → Except String PyVal
  get_body_battery : String → String → Except String PyVal
  get_training_readiness : String → Except String PyVal
  get_hrv_data : String → Except String PyVal
  get_stats : String → Except String PyVal
  get_max_metrics : String → Except String PyVal
  get_rhr_day : String → Except String PyVal
  get_body_composition : String → Except String PyVal
  get_heart_rates : String → Except String PyVal

/-- `x if x else None` applied to the outcome of a wrapped remote call whose
`except` branch stores `None`. -/
def fetchOrNull (r : Except String PyVal) : PyVal :=
  match r with
  | .ok v => if truthy v then v else .null
  | .error _ => .null

mutual

/-- Serialised JSON text of a value (our model of `json.dumps(v, indent=2,
default=str)` up to concrete layout; objects and arrays are rendered
compactly). -/
def PyVal.render : PyVal → String
  | .null => "null"
  | .bool b => if b then "true" else "false"
  | .num q => if q.den = 1 then toString q.num else toString q.num ++ "/" ++ toString q.den
  | .str s => "\"" ++ s ++ "\""
  | .list xs => "[" ++ String.intercalate ", " (renderList xs) ++ "]"
  | .dict kvs => "\x7b" ++ String.intercalate ", " (renderKVs kvs) ++ "\x7d"
  | .foreign _ s => "\"" ++ s ++ "\""

/-- JSON texts of the elements of an array. -/
def renderList : List PyVal → List String
  | [] => []
  | x :: xs => PyVal.render x :: renderList xs

/-- JSON texts of the bindings of an object. -/
def renderKVs : List (String × PyVal) → List String
  | [] => []
  | (k, v) :: rest => ("\"" ++ k ++ "\": " ++ PyVal.render v) :: renderKVs rest

end

mutual

/-- Whether `json.dumps(v, ..., default=str)` succeeds: it fails only on the
(rare) foreign objects it cannot serialise even via `str`. -/
def PyVal.dumpable : PyVal → Bool
  | .null | .bool _ | .num _ | .str _ => true
  | .list xs => dumpableList xs
  | .dict kvs => dumpableKVs kvs
  | .foreign ok _ => ok

/-- All elements of an array are dumpable. -/
def dumpableList : List PyVal → Bool
  | [] => true
  | x :: xs => PyVal.dumpable x && dumpableList xs

/-- All values of an object are dumpable. -/
def dumpableKVs : List (String × PyVal) → Bool
  | [] => true
  | (_, v) :: rest => PyVal.dumpable v && dumpableKVs rest

end

/-- `str(v)` (only its existence matters to the claims; rendering reuses the
JSON text except for foreign objects). -/
def pyStr (v : PyVal) : String :=
  match v with
  | .foreign _ s => s
  | _ => PyVal.render v

/-- `json.dumps(data, indent=2, default=str)`, raising when not dumpable. -/
def jsonDumps (v : PyVal) : Except Unit String :=
  if v.dumpable then .ok v.render else .error ()

/-- `_to_json_str` from recommendations.py: strings pass through, other data
is JSON-serialised, and a failing serialisation falls back to `str(data)`. -/
def to_json_str (data : PyVal) : String :=
  if isStr data then
    match data with
    | .str s => s
    | _ => ""
  else
    match jsonDumps data with
    | .ok s => s
    | .error _ => pyStr data

/-- Zero-padded decimal rendering. -/
def natPad (w : Nat) (n : Nat) : String :=
  let s := toString n
  String.mk (List.replicate (w - s.length) '0') ++ s

/-- `d.strftime("%Y-%m-%d")`. -/
def formatDate (d : Date) : String :=
  natPad 4 d.year.toNat ++ "-" ++ natPad 2 d.month.toNat ++ "-" ++ natPad 2 d.day.toNat

/-- Bounded enumeration of the dates visited by `while current <= end`. -/
def dateListAux : Nat → Date → Date → List Date
  | 0, _, _ => []
  | fuel + 1, cur, e => if e.lt cur then [] else cur :: dateListAux fuel cur.succD e

/-- A crude strictly-monotone index used only to bound the loop length. -/
def dateIdx (d : Date) : Int := 372 * d.year + 31 * (d.month - 1) + d.day

/-- The dates visited by the per-day loops, from `s` to `e` inclusive. -/
def dateRange (s e : Date) : List Date :=
  dateListAux (dateIdx e - dateIdx s + 1).toNat s e
/-! ### get_hydration_guidance -/

/-- `max(0.0, min(100.0, q))`. -/
def clamp100 (q : ℚ) : ℚ := max 0 (min 100 q)

/-- Option-to-JSON-value embedding for numeric scores. -/
def optNum : Option ℚ → PyVal
  | some q => .num q
  | none => .null

def heatMultiplier (temperature_c : Option ℚ) : ℚ :=
  match temperature_c with
  | some t => if 30 ≤ t then 12/10 else if 25 ≤ t then 11/10 else 1
  | none => 1

theorem heatMultiplier_some (tc : ℚ) :
    heatMultiplier (some tc) =
      if 30 ≤ tc then 12/10 else if 25 ≤ tc then 11/10 else 1 := rfl

/-- The result object of `get_hydration_guidance` (decimal float literals of
the source are modelled by the corresponding exact rationals). -/
def hydrationPayload (weight_kg : ℚ) (training_minutes : Int)
    (temperature_c : Option ℚ) : PyVal :=
  let baseline_ml : ℚ := 35 * weight_kg
  let training_ml : ℚ := 500 * ((training_minutes : ℚ) / 60)
  let total_ml : ℚ := baseline_ml + training_ml
  let heat_multiplier : ℚ := heatMultiplier temperature_c
  .dict
    [("inputs", .dict
        [("weight_kg", .num weight_kg),
         ("training_minutes", .num training_minutes),
         ("temperature_c", optNum temperature_c)]),
     ("baseline_ml", .num (pyRound baseline_ml)),
     ("training_ml", .num (pyRound training_ml)),
     ("heat_multiplier", .num heat_multiplier),
     ("target_ml", .num (pyRound (total_ml * heat_multiplier)))]

/-- The `get_hydration_guidance` tool (its body cannot raise, so the
`except` wrapper is the identity). -/
def get_hydration_guidance (weight_kg : ℚ) (training_minutes : Int)
    (temperature_c : Option ℚ) : String :=
  to_json_str (hydrationPayload weight_kg training_minutes temperature_c)

/-- C6: `get_hydration_guidance` reproduces its documented arithmetic:
target_ml = round((35·kg + 500·min/60)·m) with m = 1.2 when t ≥ 30,
m = 1.1 when 25 ≤ t < 30 and m = 1.0 otherwise (also when t is absent);
baseline_ml and training_ml are the rounded addends and heat_multiplier
is m. -/
theorem claim_C6_hydration_arithmetic (w : ℚ) (t : Int) (temp : Option ℚ) :
    (∀ m : ℚ,
      ((∃ tc, temp = some tc ∧ 30 ≤ tc ∧ m = 12/10) ∨
       (∃ tc, temp = some tc ∧ 25 ≤ tc ∧ tc < 30 ∧ m = 11/10) ∨
       (((∃ tc, temp = some tc ∧ tc < 25) ∨ temp = none) ∧ m = 1)) →
      dget (hydrationPayload w t temp) "target_ml" =
          .num (pyRound ((35 * w + 500 * (t : ℚ) / 60) * m)) ∧
        dget (hydrationPayload w t temp) "heat_multiplier" = .num m) ∧
    dget (hydrationPayload w t temp) "baseline_ml" = .num (pyRound (35 * w)) ∧
    dget (hydrationPayload w t temp) "training_ml" =
      .num (pyRound (500 * (t : ℚ) / 60)) := by
  refine ⟨?_, ?_, ?_⟩
  · rintro m (⟨tc, rfl, h30, rfl⟩ | ⟨tc, rfl, h25, h30, rfl⟩ | ⟨(⟨tc, rfl, h25⟩ | rfl), rfl⟩)
    · have hm : heatMultiplier (some tc) = 12/10 := by
        rw [heatMultiplier_some, if_pos h30]
      constructor
      · show PyVal.num (pyRound ((35 * w + 500 * ((t : ℚ) / 60)) * heatMultiplier (some tc))) = _
        rw [hm]
        ring_nf
      · show PyVal.num (heatMultiplier (some tc)) = _
        rw [hm]
    · have hm : heatMultiplier (some tc) = 11/10 := by
        rw [heatMultiplier_some, if_neg (by linarith), if_pos h25]
      constructor
      · show PyVal.num (pyRound ((35 * w + 500 * ((t : ℚ) / 60)) * heatMultiplier (some tc))) = _
        rw [hm]
        ring_nf
      · show PyVal.num (heatMultiplier (some tc)) = _
        rw [hm]
    · have hm : heatMultiplier (some tc) = 1 := by
        rw [heatMultiplier_some, if_neg (by linarith), if_neg (by linarith)]
      constructor
      · show PyVal.num (pyRound ((35 * w + 500 * ((t : ℚ) / 60)) * heatMultiplier (some tc))) = _
        rw [hm]
        ring_nf
      · show PyVal.num (heatMultiplier (some tc)) = _
        rw [hm]
    · constructor
      · show PyVal.num (pyRound ((35 * w + 500 * ((t : ℚ) / 60)) * 1)) = _
        ring_nf
      · rfl
  · rfl
  · show PyVal.num (pyRound (500 * ((t : ℚ) / 60))) = _
    ring_nf

/-- Witness for C6 at weight 70 kg, 90 training minutes, 27 °C. -/
theorem claim_C6_witness :
    (∃ tc, (some (27 : ℚ)) = some tc ∧ 25 ≤ tc ∧ tc < 30 ∧ (11/10 : ℚ) = 11/10) ∧
    dget (hydrationPayload 70 90 (some 27)) "target_ml" =
      .num (pyRound ((35 * 70 + 500 * (90 : ℚ) / 60) * (11/10))) := by
  refine ⟨⟨27, rfl, by norm_num, by norm_num, rfl⟩, ?_⟩
  exact ((claim_C6_hydration_arithmetic 70 90 (some 27)).1 (11/10)
    (Or.inr (Or.inl ⟨27, rfl, by norm_num, by norm_num, rfl⟩))).1
/-! ### get_readiness_breakdown -/

/-- Arithmetic mean of a list of rationals (`sum(l)/len(l)`). -/
def qAvg (l : List ℚ) : ℚ := l.sum / l.length

/-- Sleep-hours extraction shared by several tools: for a dict result, take
`dailySleepDTO` when the key is present (else the dict itself), then a
numeric `sleepTimeSeconds`, divided by 3600. -/
def sleepHours (v : PyVal) : Option ℚ :=
  if isDict v then
    let ds := dgetD v "dailySleepDTO" v
    if isDict ds then (toNum (dget ds "sleepTimeSeconds")).map (fun s => s / 3600)
    else none
  else none

/-- The sleep component of `get_readiness_breakdown` (None when the wrapped
call raised or no numeric seconds were found). -/
def sleep_score_of (r : Except String PyVal) : Option ℚ :=
  match r with
  | .error _ => none
  | .ok v => (sleepHours v).map (fun h => max 0 (min 100 (h / 8 * 100)))

/-- The numeric `bodyBatteryValue` entries of a body-battery response list. -/
def bbValues (xs : List PyVal) : List ℚ :=
  xs.filterMap (fun row => if isDict row then toNum (dget row "bodyBatteryValue") else none)

/-- The body-battery component: average of the numeric entries of a
non-empty list response. -/
def bb_score_of (r : Except String PyVal) : Option ℚ :=
  match r with
  | .error _ => none
  | .ok (.list xs) =>
    if xs.isEmpty then none
    else if (bbValues xs).isEmpty then none else some (qAvg (bbValues xs))
  | .ok _ => none

/-- The HRV component: `avgHrv or average`, mapped from 20-100 ms onto 0-100
and clamped. -/
def hrv_score_of (r : Except String PyVal) : Option ℚ :=
  match r with
  | .error _ => none
  | .ok v =>
    if isDict v then
      (toNum (pyOr (dget v "avgHrv") (dget v "average"))).map
        (fun q => max 0 (min 100 ((q - 20) / (100 - 20) * 100)))
    else none

/-- The stress component: `avgStressLevel or stressLevel`, inverted and
clamped. -/
def stress_score_of (r : Except String PyVal) : Option ℚ :=
  match r with
  | .error _ => none
  | .ok v =>
    if isDict v then
      (toNum (pyOr (dget v "avgStressLevel") (dget v "stressLevel"))).map
        (fun q => max 0 (min 100 (100 - q)))
    else none

/-- The equal-weight combination of the available components, rounded to two
decimals (None when no component is available). -/
def readiness_of (comps : List (Option ℚ)) : Option ℚ :=
  let avail := comps.filterMap id
  if avail.isEmpty then none else some (round2 (qAvg avail))

/-- Date resolution of `get_readiness_breakdown`: a single date, else the end
of a relative range. -/
def readinessDate (today : Date) (date : String) : Option Date :=
  match parse_single_date today (some date) with
  | some d => some d
  | none => (resolve_relative_range today (some date)).map (fun r => r.2)

/-- The result object of `get_readiness_breakdown` for a resolved date
string. -/
def readinessPayload (c : Client) (dateInput : String) (dstr : String) : PyVal :=
  let ss := sleep_score_of (c.get_sleep_data dstr)
  let bs := bb_score_of (c.get_body_battery dstr dstr)
  let hs := hrv_score_of (c.get_hrv_data dstr)
  let ts := stress_score_of (c.get_stress_data dstr)
  .dict
    [("date", .str dstr),
     ("input", .str dateInput),
     ("components", .dict
        [("sleep_score", optNum ss),
         ("body_battery_score", optNum bs),
         ("hrv_score", optNum hs),
         ("stress_inverse_score", optNum ts)]),
     ("readiness_score", optNum (readiness_of [ss, bs, hs, ts]))]

/-- The `get_readiness_breakdown` tool. -/
def get_readiness_breakdown (today : Date) (c : Client) (date : String) : String :=
  match readinessDate today date with
  | none =>
    "Invalid date. Provide YYYY-MM-DD or relative phrases (e.g., \x27today\x27, \x27last week\x27)."
  | some d => to_json_str (readinessPayload c date (formatDate d))
/-! ### Claims C4 and C10 -/

/-- A client every call of which raises. -/
def errClient : Client :=
  ⟨fun _ _ _ => .error "boom", fun _ => .error "boom", fun _ => .error "boom",
   fun _ _ => .error "boom", fun _ => .error "boom", fun _ => .error "boom",
   fun _ => .error "boom", fun _ => .error "boom", fun _ => .error "boom",
   fun _ => .error "boom", fun _ => .error "boom"⟩

/-- A sleep response carrying `sleepTimeSeconds` directly (8 hours) next to a
`dailySleepDTO` dict that lacks it. -/
def c4SleepVal : PyVal :=
  .dict [("sleepTimeSeconds", .num 28800), ("dailySleepDTO", .dict [("filler", .num 0)])]

/-- A client returning `c4SleepVal` for sleep and raising everywhere else. -/
def c4Client : Client :=
  ⟨errClient.get_activities_by_date, fun _ => .ok c4SleepVal,
   errClient.get_stress_data, errClient.get_body_battery,
   errClient.get_training_readiness, errClient.get_hrv_data,
   errClient.get_stats, errClient.get_max_metrics, errClient.get_rhr_day,
   errClient.get_body_composition, errClient.get_heart_rates⟩

/-- C4 counterexample: a sleep payload that contains a numeric
`sleepTimeSeconds` directly (8 h, whose clamped score would be 100) while its
`dailySleepDTO` entry is a dict without the field; the code looks only under
the present `dailySleepDTO`, so the sleep component and the readiness score
are null, not 100 as the claim (read as covering either location) states. -/
theorem claim_C4_counterexample :
    toNum (dget c4SleepVal "sleepTimeSeconds") = some 28800 ∧
    max 0 (min 100 ((28800 : ℚ) / 3600 / 8 * 100)) = 100 ∧
    sleep_score_of (.ok c4SleepVal) = none ∧
    dget (dget (readinessPayload c4Client "2026-10-14" "2026-10-14") "components")
      "sleep_score" = .null ∧
    dget (readinessPayload c4Client "2026-10-14" "2026-10-14") "readiness_score" = .null :=
  ⟨rfl, by norm_num, rfl, rfl, rfl⟩

/-- C4 (amended): the sleep component is computed from the numeric
`sleepTimeSeconds` under `dailySleepDTO` when that key is present (and maps
to a dict), and directly only when `dailySleepDTO` is absent — i.e. from
`sleep.get("dailySleepDTO", sleep)`; for a numeric value `secs` found there
the sleep score is clamp((secs/3600)/8·100, 0, 100).  The HRV component maps
`avgHrv or average` linearly from 20-100 ms onto 0-100 and clamps, the
stress component is 100 minus the level clamped, the body-battery component
averages the numeric entries, and readiness_score is the equal-weight mean
of exactly the available components rounded to 2 decimals, or null when none
is available. -/
theorem claim_C4_readiness_formulas (c : Client) (dstr dateInput : String) :
    (∀ v secs, c.get_sleep_data dstr = .ok v →
      isDict v = true →
      isDict (dgetD v "dailySleepDTO" v) = true →
      toNum (dget (dgetD v "dailySleepDTO" v) "sleepTimeSeconds") = some secs →
      sleep_score_of (c.get_sleep_data dstr) =
        some (max 0 (min 100 (secs / 3600 / 8 * 100)))) ∧
    (∀ v q, c.get_hrv_data dstr = .ok v → isDict v = true →
      toNum (pyOr (dget v "avgHrv") (dget v "average")) = some q →
      hrv_score_of (c.get_hrv_data dstr) =
        some (max 0 (min 100 ((q - 20) / (100 - 20) * 100)))) ∧
    (∀ v q, c.get_stress_data dstr = .ok v → isDict v = true →
      toNum (pyOr (dget v "avgStressLevel") (dget v "stressLevel")) = some q →
      stress_score_of (c.get_stress_data dstr) = some (max 0 (min 100 (100 - q)))) ∧
    (∀ xs, c.get_body_battery dstr dstr = .ok (.list xs) →
      (bbValues xs).isEmpty = false →
      bb_score_of (c.get_body_battery dstr dstr) = some (qAvg (bbValues xs))) ∧
    (dget (readinessPayload c dateInput dstr) "readiness_score" =
      optNum (readiness_of
        [sleep_score_of (c.get_sleep_data dstr),
         bb_score_of (c.get_body_battery dstr dstr),
         hrv_score_of (c.get_hrv_data dstr),
         stress_score_of (c.get_stress_data dstr)]) ∧
     ∀ avail, avail =
        ([sleep_score_of (c.get_sleep_data dstr),
          bb_score_of (c.get_body_battery dstr dstr),
          hrv_score_of (c.get_hrv_data dstr),
          stress_score_of (c.get_stress_data dstr)].filterMap id) →
        readiness_of
          [sleep_score_of (c.get_sleep_data dstr),
           bb_score_of (c.get_body_battery dstr dstr),
           hrv_score_of (c.get_hrv_data dstr),
           stress_score_of (c.get_stress_data dstr)] =
          if avail.isEmpty then none else some (round2 (qAvg avail))) := by
  refine ⟨?_, ?_, ?_, ?_, rfl, ?_⟩
  · intro v secs hcall hdv hdd hnum
    rw [hcall]
    rw [sleep_score_of]
    rw [sleepHours, if_pos hdv, if_pos hdd, hnum]
    rfl
  · intro v q hcall hdv hnum
    rw [hcall]
    rw [hrv_score_of]
    rw [if_pos hdv, hnum]
    rfl
  · intro v q hcall hdv hnum
    rw [hcall]
    rw [stress_score_of]
    rw [if_pos hdv, hnum]
    rfl
  · intro xs hcall hne
    rw [hcall]
    rw [bb_score_of]
    have hxs : xs.isEmpty = false := by
      cases xs with
      | nil => simp [bbValues] at hne
      | cons a l => rfl
    rw [if_neg (by simp [hxs]), if_neg (by simp [hne])]
  · intro avail ha
    rw [ha]
    rw [readiness_of]

/-- Witness for C4 (amended) with an 8-hour `dailySleepDTO` sleep record:
the sleep component is 100 and so is the rounded readiness score. -/
theorem claim_C4_witness :
    sleep_score_of (.ok (.dict [("dailySleepDTO",
        .dict [("sleepTimeSeconds", .num 28800)])])) =
      some (max 0 (min 100 ((28800 : ℚ) / 3600 / 8 * 100))) := by
  have h := (claim_C4_readiness_formulas
    ⟨errClient.get_activities_by_date,
     fun _ => .ok (.dict [("dailySleepDTO", .dict [("sleepTimeSeconds", .num 28800)])]),
     errClient.get_stress_data, errClient.get_body_battery,
     errClient.get_training_readiness, errClient.get_hrv_data,
     errClient.get_stats, errClient.get_max_metrics, errClient.get_rhr_day,
     errClient.get_body_composition, errClient.get_heart_rates⟩
    "2026-10-14" "2026-10-14").1
    (.dict [("dailySleepDTO", .dict [("sleepTimeSeconds", .num 28800)])])
    28800 rfl rfl rfl rfl
  exact h

/-- C10: `_parse_single_date` maps "tomorrow" and "next day" to today, and
`get_readiness_breakdown` called with "tomorrow" resolves to today and
reports on today's data. -/
theorem claim_C10_tomorrow_is_today (today : Date) (c : Client) :
    parse_single_date today (some "tomorrow") = some today ∧
    parse_single_date today (some "next day") = some today ∧
    readinessDate today "tomorrow" = some today ∧
    get_readiness_breakdown today c "tomorrow" =
      to_json_str (readinessPayload c "tomorrow" (formatDate today)) :=
  ⟨rfl, rfl, rfl, rfl⟩
/-! ### get_optimized_health_data -/

/-- The activities field: the list (or `[]` when falsy) on success, an inline
"Error: ..." string on failure. -/
def actField (r : Except String PyVal) : PyVal :=
  match r with
  | .ok v => if truthy v then v else .list []
  | .error e => .str ("Error: " ++ e)

/-- `datetime.datetime.strptime(s, "%Y-%m-%d")` raising `ValueError`. -/
def parseIsoE (s : String) : Except String Date :=
  match parse_iso_date s with
  | some d => .ok d
  | none =>
    .error ("time data \x27" ++ s ++ "\x27 does not match format \x27%Y-%m-%d\x27")

/-- One day's record of `get_optimized_health_data` (insertion order as in
the source; every requested field is the wrapped result of its own remote
call, `None` on failure or falsy data). -/
def optimizedDay (c : Client) (iSleep iStress iBB iTR iHrv : Bool)
    (dstr : String) : PyVal :=
  .dict (
    [("date", .str dstr)]
    ++ (if iSleep then [("sleep", fetchOrNull (c.get_sleep_data dstr))] else [])
    ++ (if iStress then [("stress", fetchOrNull (c.get_stress_data dstr))] else [])
    ++ (if iBB then [("body_battery", fetchOrNull (c.get_body_battery dstr dstr))] else [])
    ++ (if iTR then [("training_readiness", fetchOrNull (c.get_training_readiness dstr))] else [])
    ++ (if iHrv then [("hrv", fetchOrNull (c.get_hrv_data dstr))] else [])
    ++ [("stats", fetchOrNull (c.get_stats dstr))])

/-- The result object of `get_optimized_health_data`; `Except.error` is an
exception escaping to the outer handler (only the two `strptime` calls can
raise).  The per-day loop is modelled directly on the date range. -/
def optimizedPayload (c : Client) (startStr endStr : String)
    (iAct iSleep iStress iBB iTR iHrv : Bool) (activityType : String) :
    Except String PyVal :=
  match parseIsoE startStr with
  | .error e1 => .error e1
  | .ok s =>
    match parseIsoE endStr with
    | .error e2 => .error e2
    | .ok e =>
      .ok (.dict
        [("date_range", .dict [("start", .str startStr), ("end", .str endStr)]),
         ("data", .dict (
            (if iAct then
              [("activities",
                actField (c.get_activities_by_date startStr endStr activityType))]
             else [])
            ++ [("daily_summary", .list ((dateRange s e).map
                  (fun d => optimizedDay c iSleep iStress iBB iTR iHrv (formatDate d)))),
                ("max_metrics", fetchOrNull (c.get_max_metrics endStr))]))])

/-- The `get_optimized_health_data` tool. -/
def get_optimized_health_data (c : Client) (startStr endStr : String)
    (iAct iSleep iStress iBB iTR iHrv : Bool) (activityType : String) : String :=
  match optimizedPayload c startStr endStr iAct iSleep iStress iBB iTR iHrv activityType with
  | .ok v => to_json_str v
  | .error e => "Error retrieving optimized health data: " ++ e

/-! ### get_period_summary -/

/-- Python `s[:n]` on strings. -/
def takeStr (n : Nat) (s : String) : String := String.mk (s.data.take n)

/-- The date-string bucket an activity is indexed under (first 10 chars of
`startTimeLocal or startTimeGMT` when that is a string of length ≥ 10). -/
def startDateStrOf (act : PyVal) : Option String :=
  if isDict act then
    match pyOr (dget act "startTimeLocal") (dget act "startTimeGMT") with
    | .str st => if 10 ≤ st.length then some (takeStr 10 st) else none
    | _ => none
  else none

/-- The activity list used for per-day rollups (empty unless activities were
included and came back as a list). -/
def actsIfList (iAct : Bool) (actsVal : PyVal) : List PyVal :=
  if iAct then
    match actsVal with
    | .list xs => xs
    | _ => []
  else []

/-- One day's record of `get_period_summary`. -/
def periodDay (c : Client) (iSleep iStress iBB iTR iHrv iStats : Bool)
    (dayActs : List PyVal) (dstr : String) : PyVal :=
  .dict (
    [("date", .str dstr)]
    ++ (if iSleep then [("sleep", fetchOrNull (c.get_sleep_data dstr))] else [])
    ++ (if iStress then [("stress", fetchOrNull (c.get_stress_data dstr))] else [])
    ++ (if iBB then [("body_battery", fetchOrNull (c.get_body_battery dstr dstr))] else [])
    ++ (if iTR then [("training_readiness", fetchOrNull (c.get_training_readiness dstr))] else [])
    ++ (if iHrv then [("hrv", fetchOrNull (c.get_hrv_data dstr))] else [])
    ++ (if iStats then [("stats", fetchOrNull (c.get_stats dstr))] else [])
    ++ (if !dayActs.isEmpty then [("activities", .list dayActs)] else []))

/-- Per-day sleep-hours contribution to the aggregates (only positive hours
from a successful, included call count). -/
def periodSleepContrib (iSleep : Bool) (r : Except String PyVal) : Option ℚ :=
  if iSleep then
    match r with
    | .error _ => none
    | .ok v =>
      match sleepHours v with
      | some h => if 0 < h then some h else none
      | none => none
  else none

/-- Per-day steps contribution (`steps or totalSteps or stepCount`, truncated
to int). -/
def periodStepsContrib (iStats : Bool) (r : Except String PyVal) : Option Int :=
  if iStats then
    match r with
    | .error _ => none
    | .ok v =>
      if isDict v then
        (toNum (pyOr (pyOr (dget v "steps") (dget v "totalSteps")) (dget v "stepCount"))).map
          pyTrunc
      else none
  else none

/-- Per-day training-readiness contribution. -/
def periodReadinessContrib (iTR : Bool) (r : Except String PyVal) : Option ℚ :=
  if iTR then
    match r with
    | .error _ => none
    | .ok v =>
      if isDict v && hasKey v "trainingReadiness" && isDict (dget v "trainingReadiness") then
        toNum (dget (dget v "trainingReadiness") "value")
      else none
  else none

/-- Per-day body-battery contributions (all numeric entries of a list). -/
def periodBBContrib (iBB : Bool) (r : Except String PyVal) : List ℚ :=
  if iBB then
    match r with
    | .error _ => []
    | .ok (.list xs) => bbValues xs
    | .ok _ => []
  else []

/-- Per-day HRV contribution (`avgHrv or average`). -/
def periodHrvContrib (iHrv : Bool) (r : Except String PyVal) : Option ℚ :=
  if iHrv then
    match r with
    | .error _ => none
    | .ok v =>
      if isDict v then toNum (pyOr (dget v "avgHrv") (dget v "average")) else none
  else none

/-- An activity's distance contribution (`distance or distanceInMeters`). -/
def actDist (a : PyVal) : ℚ :=
  if isDict a then (toNum (pyOr (dget a "distance") (dget a "distanceInMeters"))).getD 0
  else 0

/-- An activity's duration contribution (`duration or durationInSeconds`). -/
def actDur (a : PyVal) : ℚ :=
  if isDict a then (toNum (pyOr (dget a "duration") (dget a "durationInSeconds"))).getD 0
  else 0

/-- The aggregates object of `get_period_summary`. -/
def periodAggregates (c : Client) (iAct iSleep iBB iTR iHrv iStats : Bool)
    (actsVal : PyVal) (dstrs : List String) : PyVal :=
  let sleepContribs := dstrs.filterMap (fun d => periodSleepContrib iSleep (c.get_sleep_data d))
  let stepsContribs := dstrs.filterMap (fun d => periodStepsContrib iStats (c.get_stats d))
  let readinessVals := dstrs.filterMap (fun d => periodReadinessContrib iTR (c.get_training_readiness d))
  let bbVals := dstrs.flatMap (fun d => periodBBContrib iBB (c.get_body_battery d d))
  let hrvVals := dstrs.filterMap (fun d => periodHrvContrib iHrv (c.get_hrv_data d))
  let acts := actsIfList iAct actsVal
  let totalSteps : Int := stepsContribs.sum
  .dict (
    [("total_activities", .num acts.length),
     ("total_distance_m", .num (round2 (acts.map actDist).sum)),
     ("total_duration_s", .num (round2 (acts.map actDur).sum))]
    ++ (if !stepsContribs.isEmpty then
          [("total_steps", .num totalSteps),
           ("avg_steps_per_day", .num (pyRound ((totalSteps : ℚ) / stepsContribs.length)))]
        else [])
    ++ (if !sleepContribs.isEmpty then
          [("avg_sleep_hours", .num (round2 (sleepContribs.sum / sleepContribs.length)))]
        else [])
    ++ (if !readinessVals.isEmpty then
          [("avg_training_readiness", .num (round2 (qAvg readinessVals)))]
        else [])
    ++ (if !bbVals.isEmpty then
          [("avg_body_battery", .num (round2 (qAvg bbVals)))]
        else [])
    ++ (if !hrvVals.isEmpty then
          [("avg_hrv", .num (round2 (qAvg hrvVals)))]
        else []))

/-- `None`-or-string of the raw anchor input echoed in the payload. -/
def optStr : Option String → PyVal
  | none => .null
  | some s => .str s

/-- The result object of `get_period_summary` for a valid period (its body
cannot raise: the re-parsed date strings are its own `strftime` output). -/
def periodSummaryPayload (today : Date) (c : Client) (period : String)
    (anchorDate : Option String)
    (iAct iSleep iStress iBB iTR iHrv iStats : Bool) (activityType : String) :
    PyVal :=
  let r := resolve_anchor_period today period anchorDate
  let startStr := formatDate r.1
  let endStr := formatDate r.2.1
  let anchorStr := formatDate r.2.2
  let actsVal : PyVal :=
    if iAct then actField (c.get_activities_by_date startStr endStr activityType)
    else .list []
  let dayList := dateRange r.1 r.2.1
  let dstrs := dayList.map formatDate
  let days := dstrs.map (fun d =>
    periodDay c iSleep iStress iBB iTR iHrv iStats
      ((actsIfList iAct actsVal).filter (fun a => startDateStrOf a = some d)) d)
  .dict
    [("period", .str period),
     ("date_range", .dict
        [("start", .str startStr), ("end", .str endStr),
         ("anchor", .str anchorStr), ("anchor_input", optStr anchorDate)]),
     ("aggregates", periodAggregates c iAct iSleep iBB iTR iHrv iStats actsVal dstrs),
     ("data", .dict [("activities", actsVal), ("daily", .list days)])]

/-- The `get_period_summary` tool. -/
def get_period_summary (today : Date) (c : Client) (period : String)
    (anchorDate : Option String)
    (iAct iSleep iStress iBB iTR iHrv iStats : Bool) (activityType : String) :
    String :=
  if ¬ (period = "daily" ∨ period = "weekly" ∨ period = "monthly") then
    "Invalid period. Must be one of: daily, weekly, monthly."
  else
    to_json_str (periodSummaryPayload today c period anchorDate
      iAct iSleep iStress iBB iTR iHrv iStats activityType)
/-! ### Claim C2: individual call failures leave null / inline-error fields -/

theorem optimizedDay_fields (c : Client) (iS iSt iBB iTR iH : Bool) (dstr : String) :
    (iS = true → hasKey (optimizedDay c iS iSt iBB iTR iH dstr) "sleep" = true ∧
      dget (optimizedDay c iS iSt iBB iTR iH dstr) "sleep" =
        fetchOrNull (c.get_sleep_data dstr)) ∧
    (iSt = true → hasKey (optimizedDay c iS iSt iBB iTR iH dstr) "stress" = true ∧
      dget (optimizedDay c iS iSt iBB iTR iH dstr) "stress" =
        fetchOrNull (c.get_stress_data dstr)) ∧
    (iBB = true → hasKey (optimizedDay c iS iSt iBB iTR iH dstr) "body_battery" = true ∧
      dget (optimizedDay c iS iSt iBB iTR iH dstr) "body_battery" =
        fetchOrNull (c.get_body_battery dstr dstr)) ∧
    (iTR = true → hasKey (optimizedDay c iS iSt iBB iTR iH dstr) "training_readiness" = true ∧
      dget (optimizedDay c iS iSt iBB iTR iH dstr) "training_readiness" =
        fetchOrNull (c.get_training_readiness dstr)) ∧
    (iH = true → hasKey (optimizedDay c iS iSt iBB iTR iH dstr) "hrv" = true ∧
      dget (optimizedDay c iS iSt iBB iTR iH dstr) "hrv" =
        fetchOrNull (c.get_hrv_data dstr)) ∧
    (hasKey (optimizedDay c iS iSt iBB iTR iH dstr) "stats" = true ∧
      dget (optimizedDay c iS iSt iBB iTR iH dstr) "stats" =
        fetchOrNull (c.get_stats dstr)) := by
  cases iS <;> cases iSt <;> cases iBB <;> cases iTR <;> cases iH <;>
    simp [optimizedDay, hasKey, dget, lookupKey]

theorem periodDay_fields (c : Client) (iS iSt iBB iTR iH iStats : Bool)
    (dayActs : List PyVal) (dstr : String) :
    (iS = true → hasKey (periodDay c iS iSt iBB iTR iH iStats dayActs dstr) "sleep" = true ∧
      dget (periodDay c iS iSt iBB iTR iH iStats dayActs dstr) "sleep" =
        fetchOrNull (c.get_sleep_data dstr)) ∧
    (iSt = true → hasKey (periodDay c iS iSt iBB iTR iH iStats dayActs dstr) "stress" = true ∧
      dget (periodDay c iS iSt iBB iTR iH iStats dayActs dstr) "stress" =
        fetchOrNull (c.get_stress_data dstr)) ∧
    (iBB = true →
      hasKey (periodDay c iS iSt iBB iTR iH iStats dayActs dstr) "body_battery" = true ∧
      dget (periodDay c iS iSt iBB iTR iH iStats dayActs dstr) "body_battery" =
        fetchOrNull (c.get_body_battery dstr dstr)) ∧
    (iTR = true →
      hasKey (periodDay c iS iSt iBB iTR iH iStats dayActs dstr) "training_readiness" = true ∧
      dget (periodDay c iS iSt iBB iTR iH iStats dayActs dstr) "training_readiness" =
        fetchOrNull (c.get_training_readiness dstr)) ∧
    (iH = true → hasKey (periodDay c iS iSt iBB iTR iH iStats dayActs dstr) "hrv" = true ∧
      dget (periodDay c iS iSt iBB iTR iH iStats dayActs dstr) "hrv" =
        fetchOrNull (c.get_hrv_data dstr)) ∧
    (iStats = true → hasKey (periodDay c iS iSt iBB iTR iH iStats dayActs dstr) "stats" = true ∧
      dget (periodDay c iS iSt iBB iTR iH iStats dayActs dstr) "stats" =
        fetchOrNull (c.get_stats dstr)) := by
  cases iS <;> cases iSt <;> cases iBB <;> cases iTR <;> cases iH <;> cases iStats <;>
    simp [periodDay, hasKey, dget, lookupKey]

theorem fetchOrNull_error (r : Except String PyVal) (msg : String)
    (h : r = .error msg) : fetchOrNull r = .null := by
  rw [h]; rfl

/-- C2: when an individual remote call fails, only the corresponding field is
affected.  In `get_optimized_health_data` (valid dates, activities included)
a failing activities call stores the inline string "Error: <message>" while
the payload is still produced, with the daily summary the per-day map of
single-call fields and a failing max-metrics call stored as null; each field
of a day record is the wrapped result of its own remote call
(`fetchOrNull`), which is null whenever that call raises.
`get_period_summary` behaves the same for its activities, daily records and
per-day fields. -/
theorem claim_C2_isolated_call_failures (c : Client) (today : Date)
    (startStr endStr aType : String) (anchorDate : Option String)
    (period : String) (s e : Date) (iS iSt iBB iTR iH iStats : Bool)
    (hs : parse_iso_date startStr = some s) (he : parse_iso_date endStr = some e) :
    (∃ p, optimizedPayload c startStr endStr true iS iSt iBB iTR iH aType = .ok p ∧
      (∀ msg, c.get_activities_by_date startStr endStr aType = .error msg →
        dget (dget p "data") "activities" = .str ("Error: " ++ msg)) ∧
      dget (dget p "data") "daily_summary" =
        .list ((dateRange s e).map
          (fun d => optimizedDay c iS iSt iBB iTR iH (formatDate d))) ∧
      (∀ msg, c.get_max_metrics endStr = .error msg →
        hasKey (dget p "data") "max_metrics" = true ∧
        dget (dget p "data") "max_metrics" = .null)) ∧
    (∀ dstr, iS = true →
      hasKey (optimizedDay c iS iSt iBB iTR iH dstr) "sleep" = true ∧
      dget (optimizedDay c iS iSt iBB iTR iH dstr) "sleep" =
        fetchOrNull (c.get_sleep_data dstr)) ∧
    (∀ dstr, iSt = true →
      dget (optimizedDay c iS iSt iBB iTR iH dstr) "stress" =
        fetchOrNull (c.get_stress_data dstr)) ∧
    (∀ dstr, iBB = true →
      dget (optimizedDay c iS iSt iBB iTR iH dstr) "body_battery" =
        fetchOrNull (c.get_body_battery dstr dstr)) ∧
    (∀ dstr, iTR = true →
      dget (optimizedDay c iS iSt iBB iTR iH dstr) "training_readiness" =
        fetchOrNull (c.get_training_readiness dstr)) ∧
    (∀ dstr, iH = true →
      dget (optimizedDay c iS iSt iBB iTR iH dstr) "hrv" =
        fetchOrNull (c.get_hrv_data dstr)) ∧
    (∀ dstr, dget (optimizedDay c iS iSt iBB iTR iH dstr) "stats" =
      fetchOrNull (c.get_stats dstr)) ∧
    (∀ (r : Except String PyVal) msg, r = .error msg → fetchOrNull r = .null) ∧
    (∀ dstr dayActs, iS = true →
      dget (periodDay c iS iSt iBB iTR iH iStats dayActs dstr) "sleep" =
        fetchOrNull (c.get_sleep_data dstr)) ∧
    (∀ dstr dayActs, iStats = true →
      dget (periodDay c iS iSt iBB iTR iH iStats dayActs dstr) "stats" =
        fetchOrNull (c.get_stats dstr)) ∧
    (∀ pp res, pp = periodSummaryPayload today c period anchorDate
        true iS iSt iBB iTR iH iStats aType →
      res = resolve_anchor_period today period anchorDate →
      (∀ msg,
        c.get_activities_by_date (formatDate res.1) (formatDate res.2.1) aType =
          .error msg →
        dget (dget pp "data") "activities" = .str ("Error: " ++ msg)) ∧
      dget (dget pp "data") "daily" =
        .list (((dateRange res.1 res.2.1).map formatDate).map (fun d =>
          periodDay c iS iSt iBB iTR iH iStats
            ((actsIfList true
               (actField (c.get_activities_by_date (formatDate res.1)
                 (formatDate res.2.1) aType))).filter
              (fun a => startDateStrOf a = some d)) d))) := by
  have hp1 : parseIsoE startStr = .ok s := by simp [parseIsoE, hs]
  have hp2 : parseIsoE endStr = .ok e := by simp [parseIsoE, he]
  refine ⟨?_, ?_, ?_, ?_, ?_, ?_, ?_, ?_, ?_, ?_, ?_⟩
  · refine ⟨_, by rw [optimizedPayload, hp1, hp2], ?_, ?_, ?_⟩
    · intro msg hmsg
      simp [dget, lookupKey, actField, hmsg]
    · simp [dget, lookupKey]
    · intro msg hmsg
      refine ⟨by simp [hasKey, dget, lookupKey], ?_⟩
      simp [dget, lookupKey, fetchOrNull, hmsg]
  · intro dstr h
    exact (optimizedDay_fields c iS iSt iBB iTR iH dstr).1 h
  · intro dstr h
    exact ((optimizedDay_fields c iS iSt iBB iTR iH dstr).2.1 h).2
  · intro dstr h
    exact ((optimizedDay_fields c iS iSt iBB iTR iH dstr).2.2.1 h).2
  · intro dstr h
    exact ((optimizedDay_fields c iS iSt iBB iTR iH dstr).2.2.2.1 h).2
  · intro dstr h
    exact ((optimizedDay_fields c iS iSt iBB iTR iH dstr).2.2.2.2.1 h).2
  · intro dstr
    exact (optimizedDay_fields c iS iSt iBB iTR iH dstr).2.2.2.2.2.2
  · intro r msg h
    exact fetchOrNull_error r msg h
  · intro dstr dayActs h
    exact ((periodDay_fields c iS iSt iBB iTR iH iStats dayActs dstr).1 h).2
  · intro dstr dayActs h
    exact ((periodDay_fields c iS iSt iBB iTR iH iStats dayActs dstr).2.2.2.2.2 h).2
  · intro pp res hpp hres
    subst hpp; subst hres
    constructor
    · intro msg hmsg
      simp [periodSummaryPayload, dget, lookupKey, actField, hmsg]
    · simp [periodSummaryPayload, dget, lookupKey]

/-- Witness for C2: a two-day range with a client whose every call raises
"boom"; the activities field is the inline error string, max_metrics and the
per-day sleep field are null. -/
theorem claim_C2_witness :
    ∃ p, optimizedPayload errClient "2026-10-10" "2026-10-11"
        true true true true true false "" = .ok p ∧
      dget (dget p "data") "activities" = .str ("Error: " ++ "boom") ∧
      dget (dget p "data") "max_metrics" = .null ∧
      dget (optimizedDay errClient true true true true false "2026-10-10") "sleep" =
        fetchOrNull (errClient.get_sleep_data "2026-10-10") ∧
      fetchOrNull (errClient.get_sleep_data "2026-10-10") = .null := by
  have h := claim_C2_isolated_call_failures errClient ⟨2026, 10, 14⟩
    "2026-10-10" "2026-10-11" "" none "daily" ⟨2026, 10, 10⟩ ⟨2026, 10, 11⟩
    true true true true false false rfl rfl
  obtain ⟨p, hp, hact, _, hmm⟩ := h.1
  refine ⟨p, hp, hact "boom" rfl, (hmm "boom" rfl).2, ?_, ?_⟩
  · exact (h.2.1 "2026-10-10" rfl).2
  · exact h.2.2.2.2.2.2.2.1 (errClient.get_sleep_data "2026-10-10") "boom" rfl
/-! ### get_training_and_diet_recommendations -/

/-- `v.get(key)` where a non-dict raises `AttributeError`. -/
def pyGet (v : PyVal) (key : String) : Except String PyVal :=
  match v with
  | .dict kvs => .ok ((lookupKey kvs key).getD .null)
  | _ => .error ("AttributeError: " ++ key)

/-- `v.get(key, default)` where a non-dict raises `AttributeError`. -/
def pyGetD (v : PyVal) (key : String) (default : PyVal) : Except String PyVal :=
  match v with
  | .dict kvs => .ok ((lookupKey kvs key).getD default)
  | _ => .error ("AttributeError: " ++ key)

/-- `for x in v`: lists yield elements, dicts their keys, strings their
characters; other values raise `TypeError`. -/
def pyIter (v : PyVal) : Except String (List PyVal) :=
  match v with
  | .list xs => .ok xs
  | .dict kvs => .ok (kvs.map (fun kv => .str kv.1))
  | .str s => .ok (s.data.map (fun ch => .str (String.mk [ch])))
  | _ => .error "TypeError: not iterable"

/-- A numeric value, raising `TypeError` otherwise (model of arithmetic on a
non-number, which Python raises at the `/` or later `sum`). -/
def toNumE (v : PyVal) : Except String ℚ :=
  match toNum v with
  | some q => .ok q
  | none => .error "TypeError: not a number"

/-- The sleep-score collection loop of the recommendations analysis:
`sleepTimeSeconds/3600` when present, else `sleepQuality.overallSleepValue`. -/
def collectSleepScores : List PyVal → Except String (List ℚ)
  | [] => .ok []
  | day :: rest => do
    let sleep ← pyGet day "sleep"
    let cur : List ℚ ←
      if truthy sleep && isDict sleep then
        if hasKey sleep "sleepTimeSeconds" then do
          let q ← toNumE (dgetD sleep "sleepTimeSeconds" (.num 0))
          pure [q / 3600]
        else if hasKey sleep "sleepQuality" then do
          let ov ← pyGetD (dgetD sleep "sleepQuality" (.dict [])) "overallSleepValue" (.num 0)
          let q ← toNumE ov
          pure [q]
        else pure []
      else pure []
    let more ← collectSleepScores rest
    pure (cur ++ more)

/-- The body-battery collection loop, as written in the source: the outer
guard requires `isinstance(battery, dict)`, the inner one
`isinstance(battery, list)`, so the extraction is unreachable. -/
def collectBBValues : List PyVal → Except String (List ℚ)
  | [] => .ok []
  | day :: rest => do
    let battery ← pyGet day "body_battery"
    let cur : List ℚ ←
      if truthy battery && isDict battery then
        if isList battery && decide (truthy battery = true) then
          match battery with
          | .list xs =>
            (xs.filterMap (fun entry =>
              if isDict entry && hasKey entry "bodyBatteryValue" then
                some (dgetD entry "bodyBatteryValue" (.num 0))
              else none)).mapM toNumE
          | _ => pure []
        else pure []
      else pure []
    let more ← collectBBValues rest
    pure (cur ++ more)

/-- The training-readiness collection loop
(`trainingReadiness.get("value", 0)`). -/
def collectReadiness : List PyVal → Except String (List ℚ)
  | [] => .ok []
  | day :: rest => do
    let r ← pyGet day "training_readiness"
    let cur : List ℚ ←
      if truthy r && isDict r then
        if hasKey r "trainingReadiness" then do
          let v ← pyGetD (dgetD r "trainingReadiness" (.dict [])) "value" (.num 0)
          let q ← toNumE v
          pure [q]
        else pure []
      else pure []
    let more ← collectReadiness rest
    pure (cur ++ more)

/-- Body-battery-low training recommendation (emitted only when
body_battery_values is non-empty with a low average). -/
def trBBLow : String :=
  "Your body battery is consistently low. Focus on recovery activities like light walking, yoga, or complete rest days."

/-- Body-battery-high training recommendation. -/
def trBBHigh : String :=
  "Excellent body battery levels! This is a good time for high-intensity training sessions."

/-- Body-battery-low diet recommendation. -/
def dietBBLow : String :=
  "Focus on nutrient-dense foods: complex carbohydrates for sustained energy, lean proteins for recovery, and plenty of fruits/vegetables for micronutrients."

/-- The f-string training recommendation for a high activity count. -/
def trActive (n : Nat) : String :=
  "You\x27ve been very active (" ++ toString n ++
    " activities). Ensure you\x27re including adequate rest days to prevent overtraining."

/-- Python substring containment (`needle in hay`). -/
def isSub (needle : List Char) : List Char → Bool
  | [] => needle.isEmpty
  | c :: rest => needle.isPrefixOf (c :: rest) || isSub needle rest

/-- The training recommendations list, in source order. -/
def trainingRecs (avgSleep : ℚ) (bb readiness : List ℚ) (activityCount : Nat)
    (cl : List Char) (focusArea : Option String) : List String :=
  (if avgSleep < 7 then
    ["Consider reducing training intensity - your average sleep is below 7 hours, which may indicate insufficient recovery."]
   else if 8 ≤ avgSleep then
    ["Good sleep duration! You\x27re well-rested for training. Consider maintaining or slightly increasing training volume."]
   else [])
  ++ (if bb ≠ [] ∧ qAvg bb < 50 then [trBBLow]
      else if bb ≠ [] ∧ 70 < qAvg bb then [trBBHigh] else [])
  ++ (if readiness ≠ [] ∧ qAvg readiness < 50 then
        ["Training readiness is low. Prioritize recovery: easy pace workouts, stretching, and adequate rest between sessions."]
      else if readiness ≠ [] ∧ 70 < qAvg readiness then
        ["High training readiness detected! Ideal time for challenging workouts, intervals, or long-distance training."]
      else [])
  ++ (if activityCount = 0 then
        ["No activities recorded in this period. Start with light to moderate intensity activities and gradually build up."]
      else if 5 < activityCount then [trActive activityCount] else [])
  ++ (if isSub "marathon".data cl ∨ isSub "endurance".data cl then
        ["For endurance training: gradually increase weekly mileage by 10%, include one long run per week, and maintain easy pace for 80% of training."]
      else [])
  ++ (if isSub "performance".data cl ∨ isSub "improve".data cl then
        ["Include structured interval training: 1-2 high-intensity sessions per week with adequate recovery days between."]
      else [])
  ++ (if isSub "tired".data cl ∨ isSub "fatigue".data cl ∨ isSub "recovery".data cl then
        ["Reduce training intensity and volume. Focus on low-intensity activities or complete rest until energy levels improve."]
      else [])
  ++ (if focusArea = some "weight_loss" then
        ["Combine strength training with cardiovascular exercise. Maintain training intensity to preserve muscle mass."]
      else [])

/-- The diet recommendations list, in source order. -/
def dietRecs (avgSleep : ℚ) (bb : List ℚ) (activityCount : Nat)
    (cl : List Char) (focusArea : Option String) : List String :=
  (if avgSleep < 7 then
    ["Prioritize foods rich in magnesium and tryptophan (nuts, seeds, turkey, bananas) to support better sleep quality."]
   else [])
  ++ (if bb ≠ [] ∧ qAvg bb < 50 then [dietBBLow] else [])
  ++ (if 0 < activityCount then
        ["Ensure adequate protein intake (1.6-2.2g per kg body weight) to support muscle recovery and adaptation from your training.",
         "Time your carbohydrate intake around workouts - consume 30-60g carbs 1-2 hours before exercise and replenish within 30 minutes post-workout."]
      else [])
  ++ (if isSub "marathon".data cl ∨ isSub "endurance".data cl then
        ["Endurance focus: Increase carbohydrate intake to 6-10g per kg body weight. Focus on whole grains, fruits, and starchy vegetables."]
      else [])
  ++ (if isSub "tired".data cl ∨ isSub "fatigue".data cl ∨ isSub "recovery".data cl then
        ["Support recovery with anti-inflammatory foods: fatty fish, berries, leafy greens, and adequate hydration (35ml per kg body weight)."]
      else [])
  ++ (if focusArea = some "weight_loss" then
        ["Create a moderate calorie deficit (300-500 kcal/day). Prioritize protein to preserve muscle mass during weight loss."]
      else [])

/-- The recovery recommendations list, in source order; the first entry fires
on short sleep or (never, see C8) low body battery. -/
def recoveryRecs (avgSleep : ℚ) (bb readiness : List ℚ) : List String :=
  (if avgSleep < 7 ∨ (bb ≠ [] ∧ qAvg bb < 50) then
    ["Prioritize sleep hygiene: maintain consistent sleep schedule, reduce screen time before bed, and create a dark, cool sleeping environment."]
   else [])
  ++ (if readiness ≠ [] ∧ qAvg readiness < 50 then
        ["Consider active recovery: light stretching, foam rolling, or gentle yoga. Stay hydrated and ensure adequate rest between training sessions."]
      else [])

/-- The recommendations result object built from (provided or fetched) health
data; `Except.error` is an exception reaching the outer handler. -/
def recommendationsPayload (context : String) (focusArea : Option String)
    (hd : PyVal) : Except String PyVal := do
  let dataDict ← pyGetD hd "data" (.dict [])
  let daily_v ← pyGetD dataDict "daily_summary" (.list [])
  let dataDict2 ← pyGetD hd "data" (.dict [])
  let acts_v ← pyGetD dataDict2 "activities" (.list [])
  let daily ← pyIter daily_v
  let sleep_scores ← collectSleepScores daily
  let bb_values ← collectBBValues daily
  let readiness_scores ← collectReadiness daily
  let avgSleep : ℚ := if sleep_scores.isEmpty then 0 else qAvg sleep_scores
  let activityCount : Nat := match acts_v with | .list xs => xs.length | _ => 0
  let cl := (pyLower context).data
  pure (.dict
    [("context", .str context),
     ("focus_area", .str (if optTruthy focusArea then focusArea.getD "" else "general")),
     ("analysis", .dict (
        (if !sleep_scores.isEmpty then
          [("average_sleep_hours", .num (round1 avgSleep))] else [])
        ++ (if !bb_values.isEmpty then
              [("average_body_battery", .num (round1 (qAvg bb_values)))] else [])
        ++ (if !readiness_scores.isEmpty then
              [("average_training_readiness", .num (round1 (qAvg readiness_scores)))] else [])
        ++ [("activity_count", .num activityCount)])),
     ("training_recommendations",
        .list ((trainingRecs avgSleep bb_values readiness_scores activityCount cl focusArea).map .str)),
     ("diet_recommendations",
        .list ((dietRecs avgSleep bb_values activityCount cl focusArea).map .str)),
     ("recovery_recommendations",
        .list ((recoveryRecs avgSleep bb_values readiness_scores).map .str))])

/-- One day's record of the fetch path of the recommendations tool. -/
def recDay (c : Client) (dstr : String) : PyVal :=
  .dict [("date", .str dstr),
         ("sleep", fetchOrNull (c.get_sleep_data dstr)),
         ("stress", fetchOrNull (c.get_stress_data dstr)),
         ("body_battery", fetchOrNull (c.get_body_battery dstr dstr)),
         ("training_readiness", fetchOrNull (c.get_training_readiness dstr)),
         ("stats", fetchOrNull (c.get_stats dstr))]

/-- The auto-fetched health data of the recommendations tool (activities
failures become `[]` here, not an inline error string). -/
def fetchedHealthData (c : Client) (today : Date) (startStr endStr : Option String) :
    Except String PyVal :=
  let endS := if optTruthy endStr then endStr.getD "" else formatDate today
  let startS := if optTruthy startStr then startStr.getD "" else formatDate (subDays today 7)
  match parseIsoE startS with
  | .error e1 => .error e1
  | .ok s =>
    match parseIsoE endS with
    | .error e2 => .error e2
    | .ok e =>
      .ok (.dict
        [("date_range", .dict [("start", .str startS), ("end", .str endS)]),
         ("data", .dict
            [("activities",
              match c.get_activities_by_date startS endS "" with
              | .ok v => if truthy v then v else .list []
              | .error _ => .list []),
             ("daily_summary", .list ((dateRange s e).map (fun d => recDay c (formatDate d)))),
             ("max_metrics", fetchOrNull (c.get_max_metrics endS))])])

/-- The `get_training_and_diet_recommendations` tool; `loads` models
`json.loads`. -/
def get_training_and_diet_recommendations (today : Date) (c : Client)
    (context : String) (hdj startStr endStr focusArea : Option String)
    (loads : String → Except String PyVal) : String :=
  match (do
    let hd ← (if optTruthy hdj then loads (hdj.getD "")
              else fetchedHealthData c today startStr endStr)
    recommendationsPayload context focusArea hd : Except String PyVal) with
  | .ok v => to_json_str v
  | .error e => "Error generating recommendations: " ++ e
/-! ### Claim C8: the body-battery analysis is dead code -/

theorem except_bind_ok {α β : Type} (x : Except String α) (f : α → Except String β)
    (b : β) (h : x >>= f = .ok b) : ∃ a, x = .ok a ∧ f a = .ok b := by
  cases x with
  | ok a => exact ⟨a, rfl, h⟩
  | error e => simp [Bind.bind, Except.bind] at h

theorem string_data_append (a b : String) : (a ++ b).data = a.data ++ b.data := rfl

theorem collectBBValues_empty (daily : List PyVal) :
    collectBBValues daily = .ok [] ∨ ∃ e, collectBBValues daily = .error e := by
  induction daily with
  | nil => exact Or.inl rfl
  | cons day rest ih =>
    cases hpg : pyGet day "body_battery" with
    | error e =>
      right
      exact ⟨e, by simp [collectBBValues, hpg, Bind.bind, Except.bind]⟩
    | ok battery =>
      rcases ih with hok | ⟨e, herr⟩
      · left
        cases battery <;>
          simp [collectBBValues, hpg, hok, truthy, isDict, isList,
            Bind.bind, Except.bind, pure, Except.pure]
      · right
        refine ⟨e, ?_⟩
        cases battery <;>
          simp [collectBBValues, hpg, herr, truthy, isDict, isList,
            Bind.bind, Except.bind, pure, Except.pure]

theorem trBBLow_ne_trActive (n : Nat) : trBBLow ≠ trActive n := by
  intro h
  have h4 := congrArg (fun s => s.data.take 4) h
  simp only [trActive, string_data_append, List.append_assoc] at h4
  rw [List.take_append_of_le_length (by decide)] at h4
  exact absurd h4 (by decide)

theorem trBBHigh_ne_trActive (n : Nat) : trBBHigh ≠ trActive n := by
  intro h
  have h4 := congrArg (fun s => s.data.take 4) h
  simp only [trActive, string_data_append, List.append_assoc] at h4
  rw [List.take_append_of_le_length (by decide)] at h4
  exact absurd h4 (by decide)

theorem mem_ite2 {α : Type} {x : α} {c1 c2 : Prop} [Decidable c1] [Decidable c2]
    {l1 l2 : List α} (h : x ∈ (if c1 then l1 else if c2 then l2 else [])) :
    x ∈ l1 ∨ x ∈ l2 := by
  split_ifs at h
  · exact Or.inl h
  · exact Or.inr h
  · simp at h

theorem mem_ite1 {α : Type} {x : α} {c1 : Prop} [Decidable c1]
    {l1 : List α} (h : x ∈ (if c1 then l1 else [])) : x ∈ l1 := by
  split_ifs at h
  · exact h
  · simp at h

theorem bb_strings_not_mem_trainingRecs (avgSleep : ℚ) (readiness : List ℚ)
    (activityCount : Nat) (cl : List Char) (focusArea : Option String) :
    trBBLow ∉ trainingRecs avgSleep [] readiness activityCount cl focusArea ∧
    trBBHigh ∉ trainingRecs avgSleep [] readiness activityCount cl focusArea := by
  constructor
  · intro hmem
    simp only [trainingRecs, List.append_assoc, List.mem_append] at hmem
    rcases hmem with h | h | h | h | h | h | h | h
    · rcases mem_ite2 h with h | h <;> exact absurd h (by decide)
    · simp at h
    · rcases mem_ite2 h with h | h <;> exact absurd h (by decide)
    · rcases mem_ite2 h with h | h
      · exact absurd h (by decide)
      · exact trBBLow_ne_trActive activityCount (List.mem_singleton.mp h)
    · exact absurd (mem_ite1 h) (by decide)
    · exact absurd (mem_ite1 h) (by decide)
    · exact absurd (mem_ite1 h) (by decide)
    · exact absurd (mem_ite1 h) (by decide)
  · intro hmem
    simp only [trainingRecs, List.append_assoc, List.mem_append] at hmem
    rcases hmem with h | h | h | h | h | h | h | h
    · rcases mem_ite2 h with h | h <;> exact absurd h (by decide)
    · simp at h
    · rcases mem_ite2 h with h | h <;> exact absurd h (by decide)
    · rcases mem_ite2 h with h | h
      · exact absurd h (by decide)
      · exact trBBHigh_ne_trActive activityCount (List.mem_singleton.mp h)
    · exact absurd (mem_ite1 h) (by decide)
    · exact absurd (mem_ite1 h) (by decide)
    · exact absurd (mem_ite1 h) (by decide)
    · exact absurd (mem_ite1 h) (by decide)

theorem bb_string_not_mem_dietRecs (avgSleep : ℚ) (activityCount : Nat)
    (cl : List Char) (focusArea : Option String) :
    dietBBLow ∉ dietRecs avgSleep [] activityCount cl focusArea := by
  intro hmem
  simp only [dietRecs, List.append_assoc, List.mem_append] at hmem
  rcases hmem with h | h | h | h | h | h
  · exact absurd (mem_ite1 h) (by decide)
  · simp at h
  · exact absurd (mem_ite1 h) (by decide)
  · exact absurd (mem_ite1 h) (by decide)
  · exact absurd (mem_ite1 h) (by decide)
  · exact absurd (mem_ite1 h) (by decide)

theorem recommendationsPayload_no_bb (context : String) (focusArea : Option String)
    (hd p : PyVal) (h : recommendationsPayload context focusArea hd = .ok p) :
    hasKey (dget p "analysis") "average_body_battery" = false ∧
    (∃ l : List String, dget p "training_recommendations" = .list (l.map .str) ∧
      trBBLow ∉ l ∧ trBBHigh ∉ l) ∧
    (∃ l : List String, dget p "diet_recommendations" = .list (l.map .str) ∧
      dietBBLow ∉ l) ∧
    (∃ avgSleep readiness, dget p "recovery_recommendations" =
      .list ((recoveryRecs avgSleep [] readiness).map .str)) := by
  unfold recommendationsPayload at h
  obtain ⟨dataDict, h1, h⟩ := except_bind_ok _ _ _ h
  obtain ⟨daily_v, h2, h⟩ := except_bind_ok _ _ _ h
  obtain ⟨dataDict2, h3, h⟩ := except_bind_ok _ _ _ h
  obtain ⟨acts_v, h4, h⟩ := except_bind_ok _ _ _ h
  obtain ⟨daily, h5, h⟩ := except_bind_ok _ _ _ h
  obtain ⟨sleep_scores, h6, h⟩ := except_bind_ok _ _ _ h
  obtain ⟨bb_values, h7, h⟩ := except_bind_ok _ _ _ h
  obtain ⟨readiness_scores, h8, h⟩ := except_bind_ok _ _ _ h
  have hbb : bb_values = [] := by
    rcases collectBBValues_empty daily with hok | ⟨e, herr⟩
    · rw [h7] at hok
      exact Except.ok.inj hok
    · rw [h7] at herr
      exact absurd herr (by simp)
  subst hbb
  simp only [pure, Except.pure] at h
  injection h with hX
  subst hX
  refine ⟨?_, ?_, ?_, ?_⟩
  · by_cases hs : sleep_scores.isEmpty <;> by_cases hr : readiness_scores.isEmpty <;>
      simp [hasKey, dget, lookupKey, hs, hr]
  · exact ⟨_, rfl,
      (bb_strings_not_mem_trainingRecs _ _ _ _ _).1,
      (bb_strings_not_mem_trainingRecs _ _ _ _ _).2⟩
  · exact ⟨_, rfl, bb_string_not_mem_dietRecs _ _ _ _⟩
  · exact ⟨_, _, rfl⟩

/-- C8: body-battery extraction in the recommendations tool is dead code —
no value is both a dict and a list, so `body_battery_values` is always empty
(or the analysis raised), the analysis never holds `average_body_battery`,
and the body-battery-based training/diet recommendations are never emitted
(the recovery entry can only fire through short sleep, as the body-battery
disjunct has an empty list); every tool outcome is an inline error string or
the serialisation of such a payload. -/
theorem claim_C8_body_battery_dead_code (today : Date) (c : Client)
    (context : String) (hdj startStr endStr focusArea : Option String)
    (loads : String → Except String PyVal) :
    (∀ battery : PyVal, ¬ (isDict battery = true ∧ isList battery = true)) ∧
    (∀ daily, collectBBValues daily = .ok [] ∨ ∃ e, collectBBValues daily = .error e) ∧
    (∀ hd p, recommendationsPayload context focusArea hd = .ok p →
      hasKey (dget p "analysis") "average_body_battery" = false ∧
      (∃ l : List String, dget p "training_recommendations" = .list (l.map .str) ∧
        trBBLow ∉ l ∧ trBBHigh ∉ l) ∧
      (∃ l : List String, dget p "diet_recommendations" = .list (l.map .str) ∧
        dietBBLow ∉ l) ∧
      (∃ avgSleep readiness, dget p "recovery_recommendations" =
        .list ((recoveryRecs avgSleep [] readiness).map .str))) ∧
    ((∃ e, get_training_and_diet_recommendations today c context hdj startStr endStr
        focusArea loads = "Error generating recommendations: " ++ e) ∨
     (∃ hd p, recommendationsPayload context focusArea hd = .ok p ∧
        get_training_and_diet_recommendations today c context hdj startStr endStr
          focusArea loads = to_json_str p)) := by
  refine ⟨?_, collectBBValues_empty, recommendationsPayload_no_bb context focusArea, ?_⟩
  · intro battery
    cases battery <;> simp [isDict, isList]
  · cases hdo : (do
        let hd ← (if optTruthy hdj then loads (hdj.getD "")
                  else fetchedHealthData c today startStr endStr)
        recommendationsPayload context focusArea hd : Except String PyVal) with
    | error e =>
      left
      exact ⟨e, by simp [get_training_and_diet_recommendations, hdo]⟩
    | ok v =>
      right
      obtain ⟨hd, hsrc, hrec⟩ := except_bind_ok _ _ _ hdo
      exact ⟨hd, v, hrec, by simp [get_training_and_diet_recommendations, hdo]⟩

/-- Witness for C8 on empty health data: the analysis of the produced payload
has no `average_body_battery` entry and the recommendation lists carry no
body-battery strings. -/
theorem claim_C8_witness :
    ∃ p, recommendationsPayload "improve my running" none (.dict []) = .ok p ∧
      hasKey (dget p "analysis") "average_body_battery" = false ∧
      (∃ l : List String, dget p "training_recommendations" = .list (l.map .str) ∧
        trBBLow ∉ l ∧ trBBHigh ∉ l) := by
  refine ⟨_, rfl, ?_⟩
  have h := (claim_C8_body_battery_dead_code ⟨2026, 10, 14⟩ errClient
    "improve my running" none none none none (fun _ => .error "json")).2.2.1
    (.dict []) _ rfl
  exact ⟨h.1, h.2.1⟩
/-! ### get_trends -/

/-- The default metric set of `get_trends` (`include or [...]`). -/
def trendsDefault : List String := ["rhr", "hrv", "sleep", "steps", "body_battery"]

/-- `include or default`. -/
def resolveInclude (includeOpt : Option (List String)) : List String :=
  match includeOpt with
  | some l => if l.isEmpty then trendsDefault else l
  | none => trendsDefault

/-- One series entry of `get_trends`: each requested metric key is set from
its own wrapped remote call (absent when a successful result had the wrong
shape for rhr/hrv, null on exceptions). -/
def trendsEntry (c : Client) (inc : List String) (dstr : String) : PyVal :=
  .dict ([("date", .str dstr)]
    ++ (if "rhr" ∈ inc then
          match c.get_rhr_day dstr with
          | .ok v => if isDict v then [("rhr", dget v "restingHeartRate")] else []
          | .error _ => [("rhr", .null)]
        else [])
    ++ (if "hrv" ∈ inc then
          match c.get_hrv_data dstr with
          | .ok v =>
            if isDict v then [("hrv", pyOr (dget v "avgHrv") (dget v "average"))] else []
          | .error _ => [("hrv", .null)]
        else [])
    ++ (if "sleep" ∈ inc then
          match c.get_sleep_data dstr with
          | .ok v => [("sleep_hours",
              match sleepHours v with
              | some h => .num (round2 h)
              | none => .null)]
          | .error _ => [("sleep_hours", .null)]
        else [])
    ++ (if "steps" ∈ inc then
          match c.get_stats dstr with
          | .ok v => [("steps",
              if isDict v then
                match toNum (pyOr (pyOr (dget v "steps") (dget v "totalSteps"))
                    (dget v "stepCount")) with
                | some q => .num (pyTrunc q)
                | none => .null
              else .null)]
          | .error _ => [("steps", .null)]
        else [])
    ++ (if "body_battery" ∈ inc then
          match c.get_body_battery dstr dstr with
          | .ok (.list xs) => [("body_battery_avg",
              if !xs.isEmpty && !(bbValues xs).isEmpty then
                .num (round2 (qAvg (bbValues xs)))
              else .null)]
          | .ok _ => [("body_battery_avg", .null)]
          | .error _ => [("body_battery_avg", .null)]
        else [])
    ++ (if "weight" ∈ inc then
          match c.get_body_composition dstr with
          | .ok (.list (b0 :: _)) =>
            [("weight_kg", if isDict b0 then dget b0 "weight" else .null)]
          | .ok _ => [("weight_kg", .null)]
          | .error _ => [("weight_kg", .null)]
        else [])
    ++ (if "vo2max" ∈ inc then
          match c.get_max_metrics dstr with
          | .ok v =>
            if isDict v then [("vo2max", dget v "vo2Max"), ("fitness_age", dget v "fitnessAge")]
            else [("vo2max", .null), ("fitness_age", .null)]
          | .error _ => [("vo2max", .null), ("fitness_age", .null)]
        else []))

/-- The numeric points of one metric key across the series. -/
def extractPts (series : List PyVal) (k : String) : List ℚ :=
  series.filterMap (fun entry => toNum (dget entry k))

/-- The metric keys examined for deltas/rolling averages, in source order. -/
def trendsKeys (inc : List String) : List String :=
  (if "rhr" ∈ inc then ["rhr"] else [])
  ++ (if "hrv" ∈ inc then ["hrv"] else [])
  ++ (if "sleep" ∈ inc then ["sleep_hours"] else [])
  ++ (if "steps" ∈ inc then ["steps"] else [])
  ++ (if "body_battery" ∈ inc then ["body_battery_avg"] else [])
  ++ (if "weight" ∈ inc then ["weight_kg"] else [])
  ++ (if "vo2max" ∈ inc then ["vo2max"] else [])

/-- The last `n` elements of a list (`l[-n:]`). -/
def lastN (n : Nat) (l : List ℚ) : List ℚ := l.drop (l.length - n)

/-- The deltas object of `get_trends` (last minus first numeric point). -/
def trendsDeltas (series : List PyVal) (inc : List String) : List (String × PyVal) :=
  (trendsKeys inc).filterMap (fun k =>
    match extractPts series k with
    | [] => none
    | q :: rest => some (k, .num (round2 ((q :: rest).getLast (by simp) - q))))

/-- The rolling-averages object of `get_trends` (7- and 28-point tails). -/
def trendsRolling (series : List PyVal) (inc : List String) : List (String × PyVal) :=
  (trendsKeys inc).filterMap (fun k =>
    match extractPts series k with
    | [] => none
    | q :: rest => some (k, .dict
        [("avg_7d", .num (round2 (qAvg (lastN 7 (q :: rest))))),
         ("avg_28d", .num (round2 (qAvg (lastN 28 (q :: rest)))))]))

/-- The result object of `get_trends` for a resolved range. -/
def trendsPayload (c : Client) (startArg endArg : String) (inc : List String)
    (s e : Date) : PyVal :=
  let series := (dateRange s e).map (fun d => trendsEntry c inc (formatDate d))
  .dict
    [("range", .dict
        [("start", .str (formatDate s)), ("end", .str (formatDate e)),
         ("input", .dict [("start", .str startArg), ("end", .str endArg)])]),
     ("series", .list series),
     ("deltas", .dict (trendsDeltas series inc)),
     ("rolling", .dict (trendsRolling series inc))]

/-- The `get_trends` tool. -/
def get_trends (today : Date) (c : Client) (startArg endArg : String)
    (includeOpt : Option (List String)) : String :=
  match resolve_date_range today (some startArg) (some endArg) with
  | .error _ =>
    "Unable to resolve date range. Provide valid dates or relative phrases (e.g., \x27last 28 days\x27)."
  | .ok se => to_json_str (trendsPayload c startArg endArg (resolveInclude includeOpt) se.1 se.2)

/-! ### detect_anomalies -/

/-- One day's collected metrics in `detect_anomalies` (numeric values only —
non-numeric stored values are excluded from both flags and baselines by the
`isinstance` checks, like missing ones). -/
structure ARec where
  date : String
  rhr : Option ℚ
  hrv : Option ℚ
  sleep_hours : Option ℚ
  steps : Option ℚ
deriving Repr, DecidableEq

/-- The record collected for one day. -/
def anomalyRec (c : Client) (dstr : String) : ARec where
  date := dstr
  rhr :=
    match c.get_rhr_day dstr with
    | .ok v => if isDict v then toNum (dget v "restingHeartRate") else none
    | .error _ => none
  hrv :=
    match c.get_hrv_data dstr with
    | .ok v => if isDict v then toNum (pyOr (dget v "avgHrv") (dget v "average")) else none
    | .error _ => none
  sleep_hours :=
    match c.get_sleep_data dstr with
    | .ok v => (sleepHours v).map round2
    | .error _ => none
  steps :=
    match c.get_stats dstr with
    | .ok v =>
      if isDict v then
        (toNum (pyOr (pyOr (dget v "steps") (dget v "totalSteps"))
          (dget v "stepCount"))).map (fun q => ((pyTrunc q : Int) : ℚ))
      else none
    | .error _ => none

/-- Mean of the numeric values of one metric over a window (None when the
window holds no numeric value). -/
def baselineOf (window : List ARec) (get : ARec → Option ℚ) : Option ℚ :=
  let vals := window.filterMap get
  if vals.isEmpty then none else some (qAvg vals)

/-- The prior-up-to-7-days window `daily[max(0, idx-7):idx]`. -/
def priorWindow (daily : List ARec) (idx : Nat) : List ARec :=
  (daily.take idx).drop (idx - 7)

/-- The flags raised for the day at position `idx`, in source order. -/
def flagsFor (daily : List ARec) (idx : Nat) (rec : ARec)
    (rhrInc hrvDrop sleepMin stepsDropPct : ℚ) : List String :=
  let w := priorWindow daily idx
  (match rec.rhr, baselineOf w ARec.rhr with
   | some r, some b => if rhrInc ≤ r - b then ["rhr_elevated"] else []
   | _, _ => [])
  ++ (match rec.hrv, baselineOf w ARec.hrv with
      | some r, some b => if hrvDrop ≤ b - r then ["hrv_depressed"] else []
      | _, _ => [])
  ++ (match rec.sleep_hours with
      | some h => if h < sleepMin then ["sleep_short"] else []
      | none => [])
  ++ (match rec.steps, baselineOf w ARec.steps with
      | some st, some b =>
        if 0 < b ∧ stepsDropPct ≤ 100 * (b - st) / b then ["steps_downturn"] else []
      | _, _ => [])

/-- The anomalies list: the flagged days only, in traversal (= date) order. -/
def anomaliesOf (daily : List ARec) (rhrInc hrvDrop sleepMin stepsDropPct : ℚ) :
    List PyVal :=
  daily.enum.filterMap (fun p =>
    let fl := flagsFor daily p.1 p.2 rhrInc hrvDrop sleepMin stepsDropPct
    if fl.isEmpty then none
    else some (.dict [("date", .str p.2.date), ("flags", .list (fl.map .str))]))

/-- The result object of `detect_anomalies` for a resolved range. -/
def anomaliesPayload (c : Client) (startArg endArg : String)
    (rhrInc hrvDrop sleepMin stepsDropPct : ℚ) (s e : Date) : PyVal :=
  let daily := (dateRange s e).map (fun d => anomalyRec c (formatDate d))
  .dict
    [("range", .dict
        [("start", .str (formatDate s)), ("end", .str (formatDate e)),
         ("input", .dict [("start", .str startArg), ("end", .str endArg)])]),
     ("anomalies", .list (anomaliesOf daily rhrInc hrvDrop sleepMin stepsDropPct))]

/-- The `detect_anomalies` tool. -/
def detect_anomalies (today : Date) (c : Client) (startArg endArg : String)
    (rhrInc hrvDrop sleepMin stepsDropPct : ℚ) : String :=
  match resolve_date_range today (some startArg) (some endArg) with
  | .error _ =>
    "Unable to resolve date range. Provide valid dates or relative phrases (e.g., \x27last week\x27)."
  | .ok se => to_json_str (anomaliesPayload c startArg endArg
      rhrInc hrvDrop sleepMin stepsDropPct se.1 se.2)
/-! ### Order of the per-day loops -/

theorem Date.lt_trans {a b c : Date} (h1 : a.lt b) (h2 : b.lt c) : a.lt c := by
  obtain ⟨ay, am, ad⟩ := a; obtain ⟨by_, bm, bd⟩ := b; obtain ⟨cy, cm, cd⟩ := c
  simp only [Date.lt] at *
  omega

theorem Date.lt_ne {a b : Date} (h : a.lt b) : a ≠ b := by
  intro heq
  subst heq
  obtain ⟨ay, am, ad⟩ := a
  simp only [Date.lt] at h
  omega

theorem Date.succD_valid {d : Date} (hv : d.Valid) : d.succD.Valid := by
  obtain ⟨y, m, dd⟩ := d
  have hb : 1 ≤ m ∧ m ≤ 12 ∧ 1 ≤ dd ∧ dd ≤ daysInMonth y m := hv
  rw [Date.succD_mk]
  split_ifs with h1 h2
  · rw [Date.valid_mk]; omega
  · rw [Date.valid_mk]
    have := daysInMonth_ge y (m + 1)
    omega
  · rw [Date.valid_mk]
    have := daysInMonth_ge (y + 1) 1
    omega

theorem Date.succD_gt {d : Date} (hv : d.Valid) : d.lt d.succD := by
  obtain ⟨y, m, dd⟩ := d
  have hb : 1 ≤ m ∧ m ≤ 12 ∧ 1 ≤ dd ∧ dd ≤ daysInMonth y m := hv
  rw [Date.succD_mk]
  split_ifs with h1 h2
  · exact Or.inr ⟨rfl, Or.inr ⟨rfl, lt_add_one dd⟩⟩
  · exact Or.inr ⟨rfl, Or.inl (lt_add_one m)⟩
  · exact Or.inl (lt_add_one y)

theorem dateListAux_ge (fuel : Nat) :
    ∀ s e : Date, s.Valid → ∀ x ∈ dateListAux fuel s e, s = x ∨ s.lt x := by
  induction fuel with
  | zero => intro s e _ x hx; simp [dateListAux] at hx
  | succ n ih =>
    intro s e hs x hx
    rw [dateListAux] at hx
    split_ifs at hx with hlt
    · simp at hx
    · rcases List.mem_cons.mp hx with h | h
      · exact Or.inl h.symm
      · rcases ih s.succD e (Date.succD_valid hs) x h with h2 | h2
        · exact Or.inr (h2 ▸ Date.succD_gt hs)
        · exact Or.inr (Date.lt_trans (Date.succD_gt hs) h2)

theorem dateListAux_pairwise (fuel : Nat) :
    ∀ s e : Date, s.Valid → (dateListAux fuel s e).Pairwise Date.lt := by
  induction fuel with
  | zero => intro s e _; simp [dateListAux]
  | succ n ih =>
    intro s e hs
    rw [dateListAux]
    split_ifs with hlt
    · exact List.Pairwise.nil
    · refine List.Pairwise.cons ?_ (ih s.succD e (Date.succD_valid hs))
      intro x hx
      rcases dateListAux_ge n s.succD e (Date.succD_valid hs) x hx with h | h
      · exact h ▸ Date.succD_gt hs
      · exact Date.lt_trans (Date.succD_gt hs) h

theorem dateRange_pairwise {s : Date} (e : Date) (hs : s.Valid) :
    (dateRange s e).Pairwise Date.lt :=
  dateListAux_pairwise _ s e hs

theorem dateRange_nodup {s : Date} (e : Date) (hs : s.Valid) :
    (dateRange s e).Nodup :=
  (dateRange_pairwise e hs).imp Date.lt_ne
/-! ### Claim C7: anomaly flag semantics -/

theorem mem_match2 {x s : String} {o1 o2 : Option ℚ} {P : ℚ → ℚ → Prop}
    [∀ a b, Decidable (P a b)]
    (h : x ∈ (match o1, o2 with
      | some r, some b => if P r b then [s] else []
      | _, _ => ([] : List String))) :
    x = s ∧ ∃ r b, o1 = some r ∧ o2 = some b ∧ P r b := by
  cases o1 with
  | none => simp at h
  | some r =>
    cases o2 with
    | none => simp at h
    | some b =>
      dsimp only at h
      split_ifs at h with hc
      · exact ⟨List.mem_singleton.mp h, r, b, rfl, rfl, hc⟩
      · simp at h

theorem mem_match1 {x s : String} {o : Option ℚ} {P : ℚ → Prop} [∀ a, Decidable (P a)]
    (h : x ∈ (match o with
      | some r => if P r then [s] else []
      | none => ([] : List String))) :
    x = s ∧ ∃ r, o = some r ∧ P r := by
  cases o with
  | none => simp at h
  | some r =>
    dsimp only at h
    split_ifs at h with hc
    · exact ⟨List.mem_singleton.mp h, r, rfl, hc⟩
    · simp at h

theorem flagsFor_rhr_iff (daily : List ARec) (idx : Nat) (rec : ARec)
    (rhrInc hrvDrop sleepMin stepsDropPct : ℚ) :
    "rhr_elevated" ∈ flagsFor daily idx rec rhrInc hrvDrop sleepMin stepsDropPct ↔
      ∃ r b, rec.rhr = some r ∧
        baselineOf (priorWindow daily idx) ARec.rhr = some b ∧ rhrInc ≤ r - b := by
  constructor
  · intro h
    simp only [flagsFor, List.append_assoc, List.mem_append] at h
    rcases h with h | h | h | h
    · obtain ⟨_, r, b, h1, h2, hc⟩ := mem_match2 h
      exact ⟨r, b, h1, h2, hc⟩
    · obtain ⟨hx, _⟩ := mem_match2 h
      exact absurd hx (by decide)
    · obtain ⟨hx, _⟩ := mem_match1 h
      exact absurd hx (by decide)
    · obtain ⟨hx, _⟩ := mem_match2 h
      exact absurd hx (by decide)
  · rintro ⟨r, b, h1, h2, hc⟩
    simp only [flagsFor, h1, h2, List.append_assoc, List.mem_append]
    exact Or.inl (by simp [hc])

theorem flagsFor_hrv_iff (daily : List ARec) (idx : Nat) (rec : ARec)
    (rhrInc hrvDrop sleepMin stepsDropPct : ℚ) :
    "hrv_depressed" ∈ flagsFor daily idx rec rhrInc hrvDrop sleepMin stepsDropPct ↔
      ∃ r b, rec.hrv = some r ∧
        baselineOf (priorWindow daily idx) ARec.hrv = some b ∧ hrvDrop ≤ b - r := by
  constructor
  · intro h
    simp only [flagsFor, List.append_assoc, List.mem_append] at h
    rcases h with h | h | h | h
    · obtain ⟨hx, _⟩ := mem_match2 h
      exact absurd hx (by decide)
    · obtain ⟨_, r, b, h1, h2, hc⟩ := mem_match2 h
      exact ⟨r, b, h1, h2, hc⟩
    · obtain ⟨hx, _⟩ := mem_match1 h
      exact absurd hx (by decide)
    · obtain ⟨hx, _⟩ := mem_match2 h
      exact absurd hx (by decide)
  · rintro ⟨r, b, h1, h2, hc⟩
    simp only [flagsFor, h1, h2, List.append_assoc, List.mem_append]
    exact Or.inr (Or.inl (by simp [hc]))

theorem flagsFor_sleep_iff (daily : List ARec) (idx : Nat) (rec : ARec)
    (rhrInc hrvDrop sleepMin stepsDropPct : ℚ) :
    "sleep_short" ∈ flagsFor daily idx rec rhrInc hrvDrop sleepMin stepsDropPct ↔
      ∃ h, rec.sleep_hours = some h ∧ h < sleepMin := by
  constructor
  · intro h
    simp only [flagsFor, List.append_assoc, List.mem_append] at h
    rcases h with h | h | h | h
    · obtain ⟨hx, _⟩ := mem_match2 h
      exact absurd hx (by decide)
    · obtain ⟨hx, _⟩ := mem_match2 h
      exact absurd hx (by decide)
    · obtain ⟨_, r, h1, hc⟩ := mem_match1 h
      exact ⟨r, h1, hc⟩
    · obtain ⟨hx, _⟩ := mem_match2 h
      exact absurd hx (by decide)
  · rintro ⟨r, h1, hc⟩
    simp only [flagsFor, h1, List.append_assoc, List.mem_append]
    exact Or.inr (Or.inr (Or.inl (by simp [hc])))

theorem flagsFor_steps_iff (daily : List ARec) (idx : Nat) (rec : ARec)
    (rhrInc hrvDrop sleepMin stepsDropPct : ℚ) :
    "steps_downturn" ∈ flagsFor daily idx rec rhrInc hrvDrop sleepMin stepsDropPct ↔
      ∃ stp b, rec.steps = some stp ∧
        baselineOf (priorWindow daily idx) ARec.steps = some b ∧
        0 < b ∧ stepsDropPct ≤ 100 * (b - stp) / b := by
  constructor
  · intro h
    simp only [flagsFor, List.append_assoc, List.mem_append] at h
    rcases h with h | h | h | h
    · obtain ⟨hx, _⟩ := mem_match2 h
      exact absurd hx (by decide)
    · obtain ⟨hx, _⟩ := mem_match2 h
      exact absurd hx (by decide)
    · obtain ⟨hx, _⟩ := mem_match1 h
      exact absurd hx (by decide)
    · obtain ⟨_, r, b, h1, h2, hc⟩ := mem_match2 h
      exact ⟨r, b, h1, h2, hc⟩
  · rintro ⟨stp, b, h1, h2, hc⟩
    simp only [flagsFor, h1, h2, List.append_assoc, List.mem_append]
    exact Or.inr (Or.inr (Or.inr (by simp [hc])))

theorem anomaliesOf_mem (daily : List ARec) (rhrInc hrvDrop sleepMin stepsDropPct : ℚ)
    (x : PyVal) (hx : x ∈ anomaliesOf daily rhrInc hrvDrop sleepMin stepsDropPct) :
    ∃ i r, daily[i]? = some r ∧
      flagsFor daily i r rhrInc hrvDrop sleepMin stepsDropPct ≠ [] ∧
      x = .dict [("date", .str r.date),
        ("flags", .list ((flagsFor daily i r rhrInc hrvDrop sleepMin stepsDropPct).map .str))] := by
  unfold anomaliesOf at hx
  obtain ⟨p, hpmem, hpx⟩ := List.mem_filterMap.mp hx
  obtain ⟨i, r⟩ := p
  have hir : daily[i]? = some r := List.mem_enum_iff_getElem?.mp hpmem
  dsimp only at hpx
  split_ifs at hpx with hfl
  refine ⟨i, r, hir, ?_, ?_⟩
  · intro hempty
    rw [hempty] at hfl
    exact hfl rfl
  · exact (Option.some.inj hpx).symm

theorem filterMap_enum_sublist {α : Type} (l : List α) (f : Nat × α → Option PyVal)
    (pr : α → PyVal)
    (hf : ∀ p x, f p = some x → dget x "date" = pr p.2) :
    ((l.enum.filterMap f).map (fun x => dget x "date")).Sublist (l.map pr) := by
  suffices h : ∀ n, (((List.enumFrom n l).filterMap f).map
      (fun x => dget x "date")).Sublist (l.map pr) from h 0
  induction l with
  | nil => intro n; simp
  | cons a t ih =>
    intro n
    rw [List.enumFrom, List.filterMap_cons]
    cases hfa : f (n, a) with
    | none =>
      exact List.Sublist.cons (pr a) (ih (n + 1))
    | some x =>
      rw [List.map_cons, List.map_cons]
      have hd := hf (n, a) x hfa
      rw [hd]
      exact List.Sublist.cons₂ (pr a) (ih (n + 1))

theorem anomalies_dates_sublist (daily : List ARec)
    (rhrInc hrvDrop sleepMin stepsDropPct : ℚ) :
    ((anomaliesOf daily rhrInc hrvDrop sleepMin stepsDropPct).map
      (fun x => dget x "date")).Sublist (daily.map (fun r => PyVal.str r.date)) := by
  unfold anomaliesOf
  refine filterMap_enum_sublist daily _ _ ?_
  intro p x hfx
  dsimp only at hfx
  split_ifs at hfx with hfl
  rw [← Option.some.inj hfx]
  rfl

/-- C7: a day is flagged `rhr_elevated` iff its resting HR exceeds the mean of
the numeric RHR values of the up-to-7 immediately preceding days by at least
the threshold, `hrv_depressed` iff that baseline mean exceeds its HRV by at
least the drop, `sleep_short` iff its sleep hours are strictly below the
minimum, `steps_downturn` iff the positive baseline steps mean drops by at
least the given percentage; a day with no numeric prior values for a metric
gets no baseline-relative flag for it, and the anomalies list holds exactly
the flagged days, in date order (its dates form a sublist of the strictly
increasing date sequence). -/
theorem claim_C7_anomaly_flags (daily : List ARec) (idx : Nat) (rec : ARec)
    (rhrInc hrvDrop sleepMin stepsDropPct : ℚ) (c : Client) (s e : Date)
    (hs : s.Valid) :
    priorWindow daily idx = (daily.take idx).drop (idx - 7) ∧
    ("rhr_elevated" ∈ flagsFor daily idx rec rhrInc hrvDrop sleepMin stepsDropPct ↔
      ∃ r b, rec.rhr = some r ∧
        baselineOf (priorWindow daily idx) ARec.rhr = some b ∧ rhrInc ≤ r - b) ∧
    ("hrv_depressed" ∈ flagsFor daily idx rec rhrInc hrvDrop sleepMin stepsDropPct ↔
      ∃ r b, rec.hrv = some r ∧
        baselineOf (priorWindow daily idx) ARec.hrv = some b ∧ hrvDrop ≤ b - r) ∧
    ("sleep_short" ∈ flagsFor daily idx rec rhrInc hrvDrop sleepMin stepsDropPct ↔
      ∃ h, rec.sleep_hours = some h ∧ h < sleepMin) ∧
    ("steps_downturn" ∈ flagsFor daily idx rec rhrInc hrvDrop sleepMin stepsDropPct ↔
      ∃ stp b, rec.steps = some stp ∧
        baselineOf (priorWindow daily idx) ARec.steps = some b ∧
        0 < b ∧ stepsDropPct ≤ 100 * (b - stp) / b) ∧
    (baselineOf (priorWindow daily idx) ARec.rhr = none →
      "rhr_elevated" ∉ flagsFor daily idx rec rhrInc hrvDrop sleepMin stepsDropPct) ∧
    (∀ x ∈ anomaliesOf daily rhrInc hrvDrop sleepMin stepsDropPct,
      ∃ i r, daily[i]? = some r ∧
        flagsFor daily i r rhrInc hrvDrop sleepMin stepsDropPct ≠ [] ∧
        x = .dict [("date", .str r.date),
          ("flags", .list ((flagsFor daily i r rhrInc hrvDrop sleepMin stepsDropPct).map .str))]) ∧
    ((anomaliesOf daily rhrInc hrvDrop sleepMin stepsDropPct).map
      (fun x => dget x "date")).Sublist (daily.map (fun r => PyVal.str r.date)) ∧
    (dateRange s e).Pairwise Date.lt ∧
    dget (anomaliesPayload c (formatDate s) (formatDate e)
        rhrInc hrvDrop sleepMin stepsDropPct s e) "anomalies" =
      .list (anomaliesOf ((dateRange s e).map (fun d => anomalyRec c (formatDate d)))
        rhrInc hrvDrop sleepMin stepsDropPct) := by
  refine ⟨rfl,
    flagsFor_rhr_iff daily idx rec rhrInc hrvDrop sleepMin stepsDropPct,
    flagsFor_hrv_iff daily idx rec rhrInc hrvDrop sleepMin stepsDropPct,
    flagsFor_sleep_iff daily idx rec rhrInc hrvDrop sleepMin stepsDropPct,
    flagsFor_steps_iff daily idx rec rhrInc hrvDrop sleepMin stepsDropPct,
    ?_,
    anomaliesOf_mem daily rhrInc hrvDrop sleepMin stepsDropPct,
    anomalies_dates_sublist daily rhrInc hrvDrop sleepMin stepsDropPct,
    dateRange_pairwise e hs, rfl⟩
  intro hnone hmem
  obtain ⟨r, b, _, hb, _⟩ :=
    (flagsFor_rhr_iff daily idx rec rhrInc hrvDrop sleepMin stepsDropPct).mp hmem
  rw [hnone] at hb
  exact absurd hb (by simp)

/-- Witness for C7: with a 50-bpm baseline day followed by a 60-bpm day and a
5-bpm threshold, the second day is flagged `rhr_elevated`. -/
theorem claim_C7_witness :
    Date.Valid ⟨2026, 10, 13⟩ ∧
    "rhr_elevated" ∈ flagsFor
      [⟨"2026-10-13", some 50, none, none, none⟩,
       ⟨"2026-10-14", some 60, none, none, none⟩] 1
      ⟨"2026-10-14", some 60, none, none, none⟩ 5 15 6 30 := by
  refine ⟨by decide, ?_⟩
  refine (claim_C7_anomaly_flags
    [⟨"2026-10-13", some 50, none, none, none⟩,
     ⟨"2026-10-14", some 60, none, none, none⟩] 1
    ⟨"2026-10-14", some 60, none, none, none⟩ 5 15 6 30 errClient
    ⟨2026, 10, 13⟩ ⟨2026, 10, 14⟩ (by decide)).2.1.mpr
    ⟨60, 50, rfl, by norm_num [baselineOf, priorWindow, qAvg, List.filterMap_cons], by norm_num⟩
/-! ### Claim C5: one remote call per (tool call, day, metric); failure shapes -/

/-- The remote calls `get_trends` makes for one day of the range, in source
order (one call per included metric; method names identify the client
methods). -/
def trendsDayCalls (inc : List String) (d : Date) : List (String × Date) :=
  (if "rhr" ∈ inc then [("get_rhr_day", d)] else [])
  ++ (if "hrv" ∈ inc then [("get_hrv_data", d)] else [])
  ++ (if "sleep" ∈ inc then [("get_sleep_data", d)] else [])
  ++ (if "steps" ∈ inc then [("get_stats", d)] else [])
  ++ (if "body_battery" ∈ inc then [("get_body_battery", d)] else [])
  ++ (if "weight" ∈ inc then [("get_body_composition", d)] else [])
  ++ (if "vo2max" ∈ inc then [("get_max_metrics", d)] else [])

/-- The full remote-call trace of one `get_trends` invocation over a resolved
range: the per-day calls of every day, in loop order. -/
def trendsTrace (inc : List String) (s e : Date) : List (String × Date) :=
  (dateRange s e).flatMap (trendsDayCalls inc)

theorem count_ite_pair (c : Prop) [Decidable c] (m' m : String) (d d' : Date) :
    ((if c then [(m', d')] else []) : List (String × Date)).count (m, d) =
      if c ∧ m' = m ∧ d' = d then 1 else 0 := by
  split_ifs with h1 h2 h3 <;>
    simp_all [List.count_cons, List.count_nil, Prod.ext_iff]

theorem trendsDayCalls_dates (inc : List String) (d : Date) (p : String × Date)
    (hp : p ∈ trendsDayCalls inc d) : p.2 = d := by
  simp only [trendsDayCalls, List.append_assoc, List.mem_append] at hp
  rcases hp with h | h | h | h | h | h | h <;>
    · rcases mem_ite1 h with h
      simp_all

theorem count_flatMap_single (f : Date → List (String × Date)) (l : List Date)
    (hz : ∀ d' x, d' ∈ l → x ∈ f d' → x.2 = d') :
    ∀ (d : Date) (mth : String), l.Nodup → d ∈ l →
      (l.flatMap f).count (mth, d) = (f d).count (mth, d) := by
  induction l with
  | nil => intro d mth _ hd; simp at hd
  | cons a t ih =>
    intro d mth hnd hd
    rw [List.flatMap_cons, List.count_append]
    rcases List.mem_cons.mp hd with heq | hmem
    · subst heq
      have ht : (t.flatMap f).count (mth, d) = 0 := by
        rw [List.count_eq_zero]
        intro hmem2
        obtain ⟨d', hd', hx⟩ := List.mem_flatMap.mp hmem2
        have := hz d' (mth, d) (List.mem_cons_of_mem d hd') hx
        simp at this
        subst this
        exact (List.nodup_cons.mp hnd).1 hd'
      omega
    · have ha : (f a).count (mth, d) = 0 := by
        rw [List.count_eq_zero]
        intro hmem2
        have := hz a (mth, d) (List.mem_cons_self a t) hmem2
        simp at this
        subst this
        exact (List.nodup_cons.mp hnd).1 hmem
      have := ih (fun d' x hd' hx => hz d' x (List.mem_cons_of_mem a hd') hx)
        d mth (List.nodup_cons.mp hnd).2 hmem
      omega

/-- Metric names paired with the client method `get_trends` consults for
them. -/
def trendsMethodTable : List (String × String) :=
  [("rhr", "get_rhr_day"), ("hrv", "get_hrv_data"), ("sleep", "get_sleep_data"),
   ("steps", "get_stats"), ("body_battery", "get_body_battery"),
   ("weight", "get_body_composition"), ("vo2max", "get_max_metrics")]

theorem trendsDayCalls_count (inc : List String) (d : Date) (pr : String × String)
    (hpr : pr ∈ trendsMethodTable) :
    (trendsDayCalls inc d).count (pr.2, d) = if pr.1 ∈ inc then 1 else 0 := by
  fin_cases hpr <;>
    simp [trendsDayCalls, List.count_append, count_ite_pair]

/-- C5 (amended): there is no retry or backoff — within one `get_trends` call
the trace contains each (method, day) pair of an included metric exactly
once per day of the range, and never twice; every failure outcome still
returns a normal string, but unresolvable date inputs yield the fixed
inline message and an exception escaping `get_optimized_health_data` yields
an "Error retrieving..." string, both of which are error-shaped returns
distinguishable from the serialised JSON payloads (contrary to the original
claim, refuted by the counterexample). -/
theorem claim_C5_single_attempt_and_failure_shapes (today : Date) (c : Client)
    (inc : List String) (s e : Date) (hs : s.Valid) :
    (∀ d mth, d ∈ dateRange s e →
      (trendsTrace inc s e).count (mth, d) = (trendsDayCalls inc d).count (mth, d)) ∧
    (∀ d pr, pr ∈ trendsMethodTable →
      (trendsDayCalls inc d).count (pr.2, d) = if pr.1 ∈ inc then 1 else 0) ∧
    (∀ startArg endArg incOpt,
      get_trends today c startArg endArg incOpt =
        "Unable to resolve date range. Provide valid dates or relative phrases (e.g., \x27last 28 days\x27)." ∨
      ∃ p, get_trends today c startArg endArg incOpt = to_json_str p) ∧
    (∀ startArg endArg a b m n aType,
      (∃ msg, get_optimized_health_data c startArg endArg a b m n true false aType =
        "Error retrieving optimized health data: " ++ msg) ∨
      ∃ p, get_optimized_health_data c startArg endArg a b m n true false aType =
        to_json_str p) := by
  refine ⟨?_, fun d pr hpr => trendsDayCalls_count inc d pr hpr, ?_, ?_⟩
  · intro d mth hd
    exact count_flatMap_single (trendsDayCalls inc) (dateRange s e)
      (fun d' x _ hx => trendsDayCalls_dates inc d' x hx) d mth
      (dateRange_nodup e hs) hd
  · intro startArg endArg incOpt
    unfold get_trends
    cases resolve_date_range today (some startArg) (some endArg) with
    | error msg => exact Or.inl rfl
    | ok se => exact Or.inr ⟨_, rfl⟩
  · intro startArg endArg a b m n aType
    unfold get_optimized_health_data
    cases hop : optimizedPayload c startArg endArg a b m n true false aType with
    | error msg => exact Or.inl ⟨msg, rfl⟩
    | ok p => exact Or.inr ⟨p, rfl⟩

/-- C5 counterexample: with unresolvable date inputs `get_trends` returns the
fixed "Unable to resolve..." message — an error-shaped return that differs
from the tool's normal JSON payload on a resolvable range with the same
(all-raising) client, and `get_optimized_health_data` with a malformed start
date returns an "Error retrieving..." string; both are distinguishable
failure outcomes. -/
theorem claim_C5_counterexample :
    get_trends ⟨2026, 10, 14⟩ errClient "x" "y" none =
      "Unable to resolve date range. Provide valid dates or relative phrases (e.g., \x27last 28 days\x27)." ∧
    (∃ p, get_trends ⟨2026, 10, 14⟩ errClient "2026-10-14" "2026-10-14" none =
        to_json_str p ∧
      to_json_str p ≠ get_trends ⟨2026, 10, 14⟩ errClient "x" "y" none) ∧
    get_optimized_health_data errClient "bad-date" "2026-10-14"
        true true true true true false "" =
      "Error retrieving optimized health data: time data \x27bad-date\x27 does not match format \x27%Y-%m-%d\x27" ∧
    (get_optimized_health_data errClient "bad-date" "2026-10-14"
        true true true true true false "").data.take 5 = "Error".data ∧
    (get_trends ⟨2026, 10, 14⟩ errClient "2026-10-14" "2026-10-14" none).data.take 1 =
      ['\x7b'] := by
  refine ⟨rfl, ⟨_, rfl, ?_⟩, rfl, rfl, rfl⟩
  decide

/-- Witness for C5 (amended): in a two-day range the rhr method is called
exactly once for the second day. -/
theorem claim_C5_witness :
    (trendsTrace trendsDefault ⟨2026, 10, 13⟩ ⟨2026, 10, 14⟩).count
      ("get_rhr_day", ⟨2026, 10, 14⟩) = 1 := by
  have h := claim_C5_single_attempt_and_failure_shapes ⟨2026, 10, 14⟩ errClient
    trendsDefault ⟨2026, 10, 13⟩ ⟨2026, 10, 14⟩ (by decide)
  have h1 := h.1 ⟨2026, 10, 14⟩ "get_rhr_day" (by decide)
  have h2 := h.2.1 ⟨2026, 10, 14⟩ ("rhr", "get_rhr_day") (by decide)
  rw [h1, h2]
  decide
/-! ### get_data_completeness -/

/-- The five per-day signal booleans, in source order. -/
def completenessSignals (c : Client) (dstr : String) : List (String × Bool) :=
  [("sleep",
    match c.get_sleep_data dstr with
    | .ok v => truthy v
    | .error _ => false),
   ("steps",
    match c.get_stats dstr with
    | .ok v => if isDict v then (toNum (dget v "steps")).isSome else false
    | .error _ => false),
   ("hrv",
    match c.get_hrv_data dstr with
    | .ok v =>
      if isDict v then (toNum (pyOr (dget v "avgHrv") (dget v "average"))).isSome
      else false
    | .error _ => false),
   ("body_battery",
    match c.get_body_battery dstr dstr with
    | .ok (.list xs) => !xs.isEmpty
    | .ok _ => false
    | .error _ => false),
   ("hr",
    match c.get_heart_rates dstr with
    | .ok v => truthy v
    | .error _ => false)]

/-- One day's completeness score (fraction of present signals). -/
def completenessOf (signals : List (String × Bool)) : ℚ :=
  ((signals.filter (fun kv => kv.2)).length : ℚ) / 5

/-- The result object of `get_data_completeness` for a resolved range. -/
def completenessPayload (c : Client) (startArg endArg : String) (s e : Date) : PyVal :=
  let days := dateRange s e
  let perDay := days.map (fun d =>
    let sig := completenessSignals c (formatDate d)
    (sig, formatDate d))
  let presentDays := (perDay.filter (fun p => (3 : ℚ) / 5 ≤ completenessOf p.1)).length
  let totalDays := days.length
  .dict
    [("range", .dict
        [("start", .str (formatDate s)), ("end", .str (formatDate e)),
         ("input", .dict [("start", .str startArg), ("end", .str endArg)])]),
     ("overall", .num (if 0 < totalDays then
        round2 ((presentDays : ℚ) / (totalDays : ℚ)) else 0)),
     ("daily", .list (perDay.map (fun p =>
        .dict [("date", .str p.2),
               ("signals", .dict (p.1.map (fun kv => (kv.1, .bool kv.2)))),
               ("completeness", .num (round2 (completenessOf p.1)))])))]

/-- The `get_data_completeness` tool. -/
def get_data_completeness (today : Date) (c : Client) (startArg endArg : String) :
    String :=
  match resolve_date_range today (some startArg) (some endArg) with
  | .error _ =>
    "Unable to resolve date range. Provide valid dates or relative phrases (e.g., \x27last month\x27)."
  | .ok se => to_json_str (completenessPayload c startArg endArg se.1 se.2)

/-! ### get_coach_cues -/

/-- The per-day sleep-hours samples of `get_coach_cues` (no positivity
filter here, unlike the period summary). -/
def cueSleepSamples (c : Client) (dstrs : List String) : List ℚ :=
  dstrs.filterMap (fun d =>
    match c.get_sleep_data d with
    | .ok v => sleepHours v
    | .error _ => none)

/-- The per-day body-battery day-averages of `get_coach_cues`. -/
def cueBBSamples (c : Client) (dstrs : List String) : List ℚ :=
  dstrs.filterMap (fun d =>
    match c.get_body_battery d d with
    | .ok (.list xs) =>
      if (bbValues xs).isEmpty then none else some (qAvg (bbValues xs))
    | _ => none)

/-- The per-day training-readiness samples of `get_coach_cues`. -/
def cueReadinessSamples (c : Client) (dstrs : List String) : List ℚ :=
  dstrs.filterMap (fun d => periodReadinessContrib true (c.get_training_readiness d))

/-- The per-day step counts of `get_coach_cues`. -/
def cueStepsSamples (c : Client) (dstrs : List String) : List Int :=
  dstrs.filterMap (fun d => periodStepsContrib true (c.get_stats d))

/-- The prior-seven-day average step count (None when any of the prior-week
stats calls raises, aborting the whole block, or no numeric steps exist). -/
def priorStepsAvg (c : Client) (startD : Date) : Option ℚ :=
  let priorEnd := subDays startD 1
  let priorStart := subDays priorEnd 6
  if priorStart.le priorEnd then
    match (dateRange priorStart priorEnd).mapM (fun d => c.get_stats (formatDate d)) with
    | .error _ => none
    | .ok statsList =>
      let priorSteps := statsList.filterMap (fun v =>
        if isDict v then
          (toNum (pyOr (pyOr (dget v "steps") (dget v "totalSteps"))
            (dget v "stepCount"))).map pyTrunc
        else none)
      if priorSteps.isEmpty then none
      else some (qAvg (priorSteps.map (fun i => (i : ℚ))))
  else none

/-- The coach cues, in source order. -/
def coachCues (avgSleep avgBB avgReadiness : Option ℚ)
    (stepsChangePct : Option ℚ) (activityCount : Nat) : List String :=
  (match avgSleep with
   | some q =>
     if q < 7 then ["Sleep is below 7h on average; prioritize an easy day or mobility."]
     else if 8 ≤ q then ["Sleep is strong; you can sustain or slightly increase intensity."]
     else []
   | none => [])
  ++ (match avgBB with
      | some q =>
        if q < 50 then ["Body battery is low; bias toward recovery work or rest."]
        else if 70 < q then ["Body battery is high; green light for quality sessions."]
        else []
      | none => [])
  ++ (match avgReadiness with
      | some q =>
        if q < 50 then
          ["Training readiness is low; reduce intensity and focus on recovery."]
        else if 70 < q then
          ["Training readiness is high; schedule harder workouts now."]
        else []
      | none => [])
  ++ (match stepsChangePct with
      | some q =>
        if q ≤ -30 then
          ["Activity volume down >30% vs prior week; rebuild gradually to avoid detraining."]
        else if 20 ≤ q then
          ["Activity volume up notably; ensure adequate recovery to avoid overuse."]
        else []
      | none => [])
  ++ (if activityCount = 0 then
        ["No activities recorded; start with light sessions and ramp conservatively."]
      else [])

/-- The result object of `get_coach_cues` for a valid period. -/
def coachCuesPayload (today : Date) (c : Client) (period : String)
    (anchorDate : Option String) : PyVal :=
  let r := resolve_anchor_period today period anchorDate
  let sd := formatDate r.1
  let ed := formatDate r.2.1
  let acts : List PyVal :=
    match c.get_activities_by_date sd ed "" with
    | .ok (.list xs) => xs
    | _ => []
  let activityCount := acts.length
  let dstrs := (dateRange r.1 r.2.1).map formatDate
  let sleepH := cueSleepSamples c dstrs
  let bbs := cueBBSamples c dstrs
  let rds := cueReadinessSamples c dstrs
  let steps := cueStepsSamples c dstrs
  let avgSleep : Option ℚ := if sleepH.isEmpty then none else some (qAvg sleepH)
  let avgBB : Option ℚ := if bbs.isEmpty then none else some (qAvg bbs)
  let avgReadiness : Option ℚ := if rds.isEmpty then none else some (qAvg rds)
  let prior := priorStepsAvg c r.1
  let stepsChangePct : Option ℚ :=
    match prior with
    | some pavg =>
      if !steps.isEmpty ∧ 0 < pavg then
        some (round1 (100 * (qAvg (steps.map (fun i => (i : ℚ))) - pavg) / pavg))
      else none
    | none => none
  .dict
    [("period", .str period),
     ("date_range", .dict
        [("start", .str sd), ("end", .str ed),
         ("anchor", .str (formatDate r.2.2)), ("anchor_input", optStr anchorDate)]),
     ("signals", .dict
        [("avg_sleep_hours", optNum (avgSleep.map round2)),
         ("avg_body_battery", optNum (avgBB.map round2)),
         ("avg_training_readiness", optNum (avgReadiness.map round2)),
         ("steps_change_pct_vs_prior7", optNum stepsChangePct),
         ("activity_count", .num activityCount)]),
     ("coach_cues", .list ((coachCues avgSleep avgBB avgReadiness stepsChangePct
        activityCount).map .str))]

/-- The `get_coach_cues` tool. -/
def get_coach_cues (today : Date) (c : Client) (period : String)
    (anchorDate : Option String) : String :=
  if ¬ (period = "daily" ∨ period = "weekly" ∨ period = "monthly") then
    "Invalid period. Must be one of: daily, weekly, monthly."
  else to_json_str (coachCuesPayload today c period anchorDate)
/-! ### Claim C3: every tool returns a string, never an exception -/

/-- C3: for every tool in recommendations.py, for all arguments and every
behavior of the remote client (each call either returning a value or raising),
the tool returns normally with a string: either the JSON serialisation
`to_json_str p` of a result object `p` or an inline error string; and
`_to_json_str` itself is total — strings pass through, serialisable data is
dumped, and when JSON serialisation fails it falls back to `str(data)`. -/
theorem claim_C3_every_tool_returns_a_string :
    (∀ d : PyVal, ∃ s : String, to_json_str d = s) ∧
    (∀ s : String, to_json_str (.str s) = s) ∧
    (∀ d : PyVal, isStr d = false → jsonDumps d = .error () →
      to_json_str d = pyStr d) ∧
    (∀ (c : Client) (ss es : String) (a1 a2 a3 a4 a5 a6 : Bool) (ty : String),
      (∃ msg, get_optimized_health_data c ss es a1 a2 a3 a4 a5 a6 ty =
          "Error retrieving optimized health data: " ++ msg) ∨
      (∃ p, get_optimized_health_data c ss es a1 a2 a3 a4 a5 a6 ty =
          to_json_str p)) ∧
    (∀ (today : Date) (c : Client) (ctx : String) (hdj ss es fa : Option String)
        (loads : String → Except String PyVal),
      (∃ msg, get_training_and_diet_recommendations today c ctx hdj ss es fa loads =
          "Error generating recommendations: " ++ msg) ∨
      (∃ p, get_training_and_diet_recommendations today c ctx hdj ss es fa loads =
          to_json_str p)) ∧
    (∀ (today : Date) (c : Client) (period : String) (anchor : Option String)
        (a1 a2 a3 a4 a5 a6 a7 : Bool) (ty : String),
      get_period_summary today c period anchor a1 a2 a3 a4 a5 a6 a7 ty =
          "Invalid period. Must be one of: daily, weekly, monthly." ∨
      (∃ p, get_period_summary today c period anchor a1 a2 a3 a4 a5 a6 a7 ty =
          to_json_str p)) ∧
    (∀ (today : Date) (c : Client) (sa ea : String) (inc : Option (List String)),
      get_trends today c sa ea inc =
          "Unable to resolve date range. Provide valid dates or relative phrases (e.g., \x27last 28 days\x27)." ∨
      (∃ p, get_trends today c sa ea inc = to_json_str p)) ∧
    (∀ (today : Date) (c : Client) (sa ea : String) (r1 r2 r3 r4 : ℚ),
      detect_anomalies today c sa ea r1 r2 r3 r4 =
          "Unable to resolve date range. Provide valid dates or relative phrases (e.g., \x27last week\x27)." ∨
      (∃ p, detect_anomalies today c sa ea r1 r2 r3 r4 = to_json_str p)) ∧
    (∀ (today : Date) (c : Client) (date : String),
      get_readiness_breakdown today c date =
          "Invalid date. Provide YYYY-MM-DD or relative phrases (e.g., \x27today\x27, \x27last week\x27)." ∨
      (∃ p, get_readiness_breakdown today c date = to_json_str p)) ∧
    (∀ (today : Date) (c : Client) (sa ea : String),
      get_data_completeness today c sa ea =
          "Unable to resolve date range. Provide valid dates or relative phrases (e.g., \x27last month\x27)." ∨
      (∃ p, get_data_completeness today c sa ea = to_json_str p)) ∧
    (∀ (w : ℚ) (t : Int) (temp : Option ℚ),
      ∃ p, get_hydration_guidance w t temp = to_json_str p) ∧
    (∀ (today : Date) (c : Client) (period : String) (anchor : Option String),
      get_coach_cues today c period anchor =
          "Invalid period. Must be one of: daily, weekly, monthly." ∨
      (∃ p, get_coach_cues today c period anchor = to_json_str p)) := by
  refine ⟨fun d => ⟨to_json_str d, rfl⟩, fun s => rfl, ?_, ?_, ?_, ?_, ?_, ?_, ?_, ?_, ?_, ?_⟩
  · intro d h1 h2
    simp [to_json_str, h1, h2]
  · intro c ss es a1 a2 a3 a4 a5 a6 ty
    cases ho : optimizedPayload c ss es a1 a2 a3 a4 a5 a6 ty with
    | error e =>
      exact Or.inl ⟨e, by unfold get_optimized_health_data; rw [ho]⟩
    | ok v =>
      exact Or.inr ⟨v, by unfold get_optimized_health_data; rw [ho]⟩
  · intro today c ctx hdj ss es fa loads
    unfold get_training_and_diet_recommendations
    cases hr : (do
        let hd ← (if optTruthy hdj then loads (hdj.getD "")
                  else fetchedHealthData c today ss es)
        recommendationsPayload ctx fa hd : Except String PyVal) with
    | error e => exact Or.inl ⟨e, rfl⟩
    | ok v => exact Or.inr ⟨v, rfl⟩
  · intro today c period anchor a1 a2 a3 a4 a5 a6 a7 ty
    by_cases hp : period = "daily" ∨ period = "weekly" ∨ period = "monthly"
    · exact Or.inr ⟨periodSummaryPayload today c period anchor a1 a2 a3 a4 a5 a6 a7 ty,
        by simp [get_period_summary, hp]⟩
    · exact Or.inl (by simp [get_period_summary, hp])
  · intro today c sa ea inc
    cases hr : resolve_date_range today (some sa) (some ea) with
    | error e => exact Or.inl (by unfold get_trends; rw [hr])
    | ok se =>
      exact Or.inr ⟨trendsPayload c sa ea (resolveInclude inc) se.1 se.2,
        by unfold get_trends; rw [hr]⟩
  · intro today c sa ea r1 r2 r3 r4
    cases hr : resolve_date_range today (some sa) (some ea) with
    | error e => exact Or.inl (by unfold detect_anomalies; rw [hr])
    | ok se =>
      exact Or.inr ⟨anomaliesPayload c sa ea r1 r2 r3 r4 se.1 se.2,
        by unfold detect_anomalies; rw [hr]⟩
  · intro today c date
    cases hr : readinessDate today date with
    | none => exact Or.inl (by unfold get_readiness_breakdown; rw [hr])
    | some d =>
      exact Or.inr ⟨readinessPayload c date (formatDate d),
        by unfold get_readiness_breakdown; rw [hr]⟩
  · intro today c sa ea
    cases hr : resolve_date_range today (some sa) (some ea) with
    | error e => exact Or.inl (by unfold get_data_completeness; rw [hr])
    | ok se =>
      exact Or.inr ⟨completenessPayload c sa ea se.1 se.2,
        by unfold get_data_completeness; rw [hr]⟩
  · intro w t temp
    exact ⟨hydrationPayload w t temp, rfl⟩
  · intro today c period anchor
    by_cases hp : period = "daily" ∨ period = "weekly" ∨ period = "monthly"
    · exact Or.inr ⟨coachCuesPayload today c period anchor,
        by simp [get_coach_cues, hp]⟩
    · exact Or.inl (by simp [get_coach_cues, hp])

/-- Witness for C3: the str-fallback implication applied at a concrete
non-serialisable foreign object. -/
theorem claim_C3_witness :
    isStr (PyVal.foreign false "objrepr") = false ∧
    jsonDumps (PyVal.foreign false "objrepr") = .error () ∧
    to_json_str (PyVal.foreign false "objrepr") = pyStr (PyVal.foreign false "objrepr") :=
  ⟨rfl, rfl,
    claim_C3_every_tool_returns_a_string.2.2.1 (PyVal.foreign false "objrepr") rfl rfl⟩
end GarminMCP
